import Mathlib

/-!
Verification of the scoring-and-affordability engine of a vehicle
recommendation backend.

The development shallowly embeds three Python components:
* `FinancialService.evaluate_affordability` (backend/app/services/financial_service.py),
* `CatalogScoringService.score_cars_for_user` (backend/app/services/catalog_scoring.py),
* `_priorities_to_weights` (backend/app/services/ai_agent.py).

Numbers are modelled as exact rationals.  Python's `round(x, k)` performs
round-half-to-even banker's rounding, modelled by `pyRound2`/`pyRound3`.
Python division raises `ZeroDivisionError` on a zero divisor, so fallible
divisions are modelled in the `Except String` monad via `pyDiv`.
Python's `list.sort` is a stable sort; `key=..., reverse=True` is modelled
by `List.mergeSort` with the reflexive-total relation "left score is at
least right score", which is stable and sorts descending.
-/

namespace VehicleRec

/-- Round-half-to-even to an integer, Python's `round(x)` on exact values. -/
def pyRoundInt (q : ℚ) : ℤ :=
  if q - ⌊q⌋ < 1/2 then ⌊q⌋
  else if 1/2 < q - ⌊q⌋ then ⌊q⌋ + 1
  else if ⌊q⌋ % 2 = 0 then ⌊q⌋ else ⌊q⌋ + 1

/-- Python `round(x, 2)` on exact rationals. -/
def pyRound2 (q : ℚ) : ℚ := (pyRoundInt (q * 100) : ℚ) / 100

/-- Python `round(x, 3)` on exact rationals. -/
def pyRound3 (q : ℚ) : ℚ := (pyRoundInt (q * 1000) : ℚ) / 1000

/-- Python `/` on numbers: raises `ZeroDivisionError` on a zero divisor. -/
def pyDiv (a b : ℚ) : Except String ℚ :=
  if b = 0 then Except.error "ZeroDivisionError" else Except.ok (a / b)

/-- Python `str.lower()` (ASCII data in this code base). -/
def pyLower (s : String) : String := ⟨s.data.map Char.toLower⟩

/-- Python `s.replace("_", " ")` (single-character pattern suffices here). -/
def pyUnderscoreToSpace (s : String) : String :=
  ⟨s.data.map (fun c => if c = '_' then ' ' else c)⟩

/-- Boolean list "starts with". -/
def listStartsWith : List Char → List Char → Bool
  | [], _ => true
  | _ :: _, [] => false
  | a :: as, b :: bs => a == b && listStartsWith as bs

/-- Boolean contiguous-sublist test. -/
def listContainsSeq (needle : List Char) (hay : List Char) : Bool :=
  match hay with
  | [] => needle.isEmpty
  | _ :: t => listStartsWith needle hay || listContainsSeq needle t

/-- Python `needle in hay` on strings: substring containment. -/
def pyIn (needle hay : String) : Bool := listContainsSeq needle.data hay.data

/-! ## Data model

A catalog record (nested `specs` JSON flattened into optional fields;
absent nested dictionaries behave exactly like absent leaves because every
access in the source is a chain of `.get(..., default)`). -/

structure Car where
  id : String
  base_msrp : Option ℚ := none
  mpg_city : Option ℚ := none
  mpg_hwy : Option ℚ := none
  seats : Option ℤ := none
  drivetrain : Option String := none
  body_style : Option String := none
  fuel_type : Option String := none
  crash_test_score : Option ℚ := none
  driver_assist : Option (List String) := none
  offroad_capable : Option Bool := none
  ground_clearance_in : Option ℚ := none
  rear_seat_child_seat_fit : Option String := none
  annual_fuel_cost : Option ℚ := none
  annual_insurance : Option ℚ := none
  annual_maintenance : Option ℚ := none
  deriving DecidableEq, Repr

/-- `credit_score` is an int or a categorical string in the source. -/
abbrev CreditScore := ℤ ⊕ String

structure FinancialProfile where
  monthly_income : Option ℚ := none
  annual_income : Option ℚ := none
  down_payment : Option ℚ := none
  trade_in_value : Option ℚ := none
  credit_score : Option CreditScore := none
  loan_term_months : Option ℤ := none
  deriving DecidableEq, Repr

structure AffordabilityResult where
  affordable : Bool
  affordability_score : ℚ
  monthly_payment : ℚ
  down_payment_required : ℚ
  total_cost_5yr : ℚ
  debt_to_income_ratio : ℚ
  reasons : List String
  warnings : List String
  deriving DecidableEq, Repr

/-! ## Financial service (financial_service.py) -/

/-- `MAX_DTI_RATIO` in the source. -/
def MAX_DTI : ℚ := 0.15
/-- `RECOMMENDED_DTI_RATIO` in the source. -/
def RECOMMENDED_DTI : ℚ := 0.10
def MIN_DOWN_PAYMENT_PERCENT : ℚ := 0.10
def RECOMMENDED_DOWN_PAYMENT_PERCENT : ℚ := 0.20

/-- `INTEREST_RATES` table. -/
def INTEREST_RATES (key : String) : Option ℚ :=
  if key = "excellent" then some 0.0549
  else if key = "good" then some 0.0699
  else if key = "fair" then some 0.0899
  else if key = "poor" then some 0.1199
  else if key = "very_poor" then some 0.1599
  else none

/-- `_get_car_price`: nested `specs.pricing.base_msrp` with default 0. -/
def get_car_price (car : Car) : ℚ := car.base_msrp.getD 0

/-- `_get_interest_rate`. -/
def get_interest_rate (credit_score : CreditScore) : ℚ :=
  match credit_score with
  | Sum.inl z =>
    if z ≥ 750 then 0.0549
    else if z ≥ 700 then 0.0699
    else if z ≥ 650 then 0.0899
    else if z ≥ 600 then 0.1199
    else 0.1599
  | Sum.inr s => (INTEREST_RATES (pyLower s)).getD 0.0699

/-- Resolution of monthly income in `evaluate_affordability`:
`monthly_income = financial_profile.get('monthly_income', 0)`, then
`if annual_income and not monthly_income: monthly_income = annual_income / 12`
(Python truthiness: a number is falsy exactly when it is zero). -/
def resolvedMonthlyIncome (fp : FinancialProfile) : ℚ :=
  let m := fp.monthly_income.getD 0
  let a := fp.annual_income.getD 0
  if a ≠ 0 ∧ m = 0 then a / 12 else m

/-- `down_payment` after the auto-default:
`if down_payment == 0: down_payment = car_price * MIN_DOWN_PAYMENT_PERCENT`. -/
def resolvedDownPayment (car : Car) (fp : FinancialProfile) : ℚ :=
  let d := fp.down_payment.getD 0
  if d = 0 then get_car_price car * MIN_DOWN_PAYMENT_PERCENT else d

/-- `effective_down_payment = down_payment + trade_in_value`. -/
def effectiveDownPayment (car : Car) (fp : FinancialProfile) : ℚ :=
  resolvedDownPayment car fp + fp.trade_in_value.getD 0

/-- `loan_amount = car_price - effective_down_payment`, clamped at 0. -/
def loanAmount (car : Car) (fp : FinancialProfile) : ℚ :=
  let l := get_car_price car - effectiveDownPayment car fp
  if l < 0 then 0 else l

def resolvedCreditScore (fp : FinancialProfile) : CreditScore :=
  fp.credit_score.getD (Sum.inr "good")

def resolvedRate (fp : FinancialProfile) : ℚ :=
  get_interest_rate (resolvedCreditScore fp)

def resolvedLoanTerm (fp : FinancialProfile) : ℤ :=
  fp.loan_term_months.getD 60

/-- `_calculate_monthly_payment`.  `math.pow(1 + r, n)` on an integer `n`
is exact rational `zpow`; the divisions can raise on a zero divisor. -/
def calculate_monthly_payment (loan_amount annual_interest_rate : ℚ)
    (loan_term_months : ℤ) : Except String ℚ :=
  if loan_amount ≤ 0 then Except.ok 0
  else if annual_interest_rate = 0 then
    pyDiv loan_amount (loan_term_months : ℚ)
  else
    let monthly_rate := annual_interest_rate / 12
    pyDiv (loan_amount * (monthly_rate * (1 + monthly_rate) ^ loan_term_months))
      ((1 + monthly_rate) ^ loan_term_months - 1)

/-- `_calculate_total_cost_ownership`.  The depreciation figure
(`car_price * 0.60`) is computed in the source but not added to the total;
it is reproduced here for fidelity. -/
def calculate_total_cost_ownership (car : Car) (car_price monthly_payment : ℚ)
    (loan_term_months : ℤ) : ℚ :=
  let months_in_5yr : ℤ := min loan_term_months 60
  let purchase_cost := monthly_payment * (months_in_5yr : ℚ)
  let annual_fuel := car.annual_fuel_cost.getD 1200
  let annual_insurance := car.annual_insurance.getD 1200
  let annual_maintenance := car.annual_maintenance.getD 800
  let operating_costs_5yr := (annual_fuel + annual_insurance + annual_maintenance) * 5
  let _depreciation := car_price * 0.60
  purchase_cost + operating_costs_5yr

/-- `_determine_affordability`.  Note: the source passes the *pre-trade-in*
`down_payment` (after the 10% auto-default) for this check. -/
def determine_affordability (_monthly_payment monthly_income dti_ratio
    down_payment car_price : ℚ) : Bool :=
  if monthly_income = 0 then false
  else if dti_ratio > MAX_DTI then false
  else if down_payment < car_price * MIN_DOWN_PAYMENT_PERCENT then false
  else true

/-- `_calculate_affordability_score`. -/
def calculate_affordability_score (dti_ratio down_payment car_price
    monthly_income : ℚ) : ℚ :=
  if monthly_income = 0 then 0
  else
    let dti_score :=
      if dti_ratio ≤ RECOMMENDED_DTI then 1
      else if dti_ratio ≤ MAX_DTI then
        1 - ((dti_ratio - RECOMMENDED_DTI) /
          (MAX_DTI - RECOMMENDED_DTI)) * 0.4
      else max 0 (0.6 - (dti_ratio - MAX_DTI) * 2)
    let down_payment_ratio := if car_price > 0 then down_payment / car_price else 0
    let down_payment_score :=
      if down_payment_ratio ≥ RECOMMENDED_DOWN_PAYMENT_PERCENT then 1
      else down_payment_ratio / RECOMMENDED_DOWN_PAYMENT_PERCENT
    let affordability_score := dti_score * 0.7 + down_payment_score * 0.3
    min 1 (max 0 affordability_score)

/-- `_generate_affordability_reasons` (receives the effective down payment). -/
def generate_affordability_reasons (affordable : Bool) (dti_ratio down_payment
    car_price _monthly_income : ℚ) : List String :=
  if affordable then
    (if dti_ratio ≤ RECOMMENDED_DTI then ["excellent_payment_ratio"]
     else if dti_ratio ≤ MAX_DTI then ["acceptable_payment_ratio"]
     else []) ++
    (let down_payment_ratio := if car_price > 0 then down_payment / car_price else 0
     if down_payment_ratio ≥ RECOMMENDED_DOWN_PAYMENT_PERCENT then ["strong_down_payment"]
     else if down_payment_ratio ≥ MIN_DOWN_PAYMENT_PERCENT then ["adequate_down_payment"]
     else [])
  else
    (if dti_ratio > MAX_DTI then ["payment_too_high_for_income"] else []) ++
    (let down_payment_ratio := if car_price > 0 then down_payment / car_price else 0
     if down_payment_ratio < MIN_DOWN_PAYMENT_PERCENT then ["insufficient_down_payment"]
     else [])

/-- `_generate_warnings` (receives the effective down payment). -/
def generate_warnings (dti_ratio down_payment car_price : ℚ)
    (credit_score : CreditScore) (loan_term_months : ℤ) : List String :=
  (if dti_ratio > RECOMMENDED_DTI ∧ dti_ratio ≤ MAX_DTI then
    ["Payment is higher than recommended 10% of income"]
   else if dti_ratio > MAX_DTI then
    ["Payment exceeds 15% of income - financial strain likely"]
   else []) ++
  (let down_payment_ratio := if car_price > 0 then down_payment / car_price else 0
   if down_payment_ratio < RECOMMENDED_DOWN_PAYMENT_PERCENT then
    ["Less than 20% down - may be underwater on loan"]
   else []) ++
  (match credit_score with
   | Sum.inl z => if z < 650 then ["Credit score may result in high interest rates"] else []
   | Sum.inr s =>
     if pyLower s = "fair" ∨ pyLower s = "poor" ∨ pyLower s = "very_poor" then
       ["Credit rating may result in high interest rates"]
     else []) ++
  (if loan_term_months > 60 then ["Loan term over 5 years - will pay more interest"] else [])

/-- Tail of `evaluate_affordability` after the monthly payment has been
computed (everything from `total_cost_5yr` on is pure). -/
def affordabilityFrom (car : Car) (fp : FinancialProfile) (monthly_payment : ℚ) :
    AffordabilityResult :=
  let car_price := get_car_price car
  let monthly_income := resolvedMonthlyIncome fp
  let credit_score := resolvedCreditScore fp
  let loan_term_months := resolvedLoanTerm fp
  let down_payment := resolvedDownPayment car fp
  let effective_down_payment := effectiveDownPayment car fp
  let total_cost_5yr := calculate_total_cost_ownership car car_price monthly_payment loan_term_months
  let dti_ratio := if monthly_income > 0 then monthly_payment / monthly_income else 1
  let affordable := determine_affordability monthly_payment monthly_income dti_ratio
    down_payment car_price
  let affordability_score := calculate_affordability_score dti_ratio effective_down_payment
    car_price monthly_income
  let reasons := generate_affordability_reasons affordable dti_ratio effective_down_payment
    car_price monthly_income
  let warnings := generate_warnings dti_ratio effective_down_payment car_price
    credit_score loan_term_months
  { affordable := affordable
    affordability_score := affordability_score
    monthly_payment := pyRound2 monthly_payment
    down_payment_required := pyRound2 effective_down_payment
    total_cost_5yr := pyRound2 total_cost_5yr
    debt_to_income_ratio := pyRound3 dti_ratio
    reasons := reasons
    warnings := warnings }

/-- `FinancialService.evaluate_affordability`. -/
def evaluate_affordability (car : Car) (fp : FinancialProfile) :
    Except String AffordabilityResult :=
  match calculate_monthly_payment (loanAmount car fp) (resolvedRate fp) (resolvedLoanTerm fp) with
  | Except.error e => Except.error e
  | Except.ok monthly_payment => Except.ok (affordabilityFrom car fp monthly_payment)

/-! ## Catalog scoring service (catalog_scoring.py) -/

/-- Partial weights override carried in `profile["weights"]`. -/
structure WeightsOverride where
  budget : Option ℚ := none
  fuel_efficiency : Option ℚ := none
  seating : Option ℚ := none
  drivetrain : Option ℚ := none
  vehicle_type : Option ℚ := none
  performance : Option ℚ := none
  features : Option ℚ := none
  safety : Option ℚ := none
  deriving DecidableEq, Repr

/-- The eight-category weight vector after merging overrides. -/
structure Weights where
  budget : ℚ
  fuel_efficiency : ℚ
  seating : ℚ
  drivetrain : ℚ
  vehicle_type : ℚ
  performance : ℚ
  features : ℚ
  safety : ℚ
  deriving DecidableEq, Repr

/-- `DEFAULT_WEIGHTS`. -/
def DEFAULT_WEIGHTS : Weights :=
  { budget := 0.20, fuel_efficiency := 0.20, seating := 0.15, drivetrain := 0.10
    vehicle_type := 0.10, performance := 0.10, features := 0.10, safety := 0.05 }

structure UserProfile where
  budget_max : Option ℚ := none
  passengers : Option ℤ := none
  commute_miles : Option ℚ := none
  has_children : Option Bool := none
  terrain : Option String := none
  features_wanted : Option (List String) := none
  priorities : Option (List String) := none
  weights : Option WeightsOverride := none
  deriving DecidableEq, Repr

structure ScoredCar where
  id : String
  score : ℚ
  reasons : List String
  deriving DecidableEq, Repr

/-- `_get_weights`: copy of the defaults updated by the (possibly partial)
override; `profile.get("weights") or {}` treats an absent map as empty. -/
def get_weights (profile : UserProfile) : Weights :=
  match profile.weights with
  | none => DEFAULT_WEIGHTS
  | some o =>
    { budget := o.budget.getD DEFAULT_WEIGHTS.budget
      fuel_efficiency := o.fuel_efficiency.getD DEFAULT_WEIGHTS.fuel_efficiency
      seating := o.seating.getD DEFAULT_WEIGHTS.seating
      drivetrain := o.drivetrain.getD DEFAULT_WEIGHTS.drivetrain
      vehicle_type := o.vehicle_type.getD DEFAULT_WEIGHTS.vehicle_type
      performance := o.performance.getD DEFAULT_WEIGHTS.performance
      features := o.features.getD DEFAULT_WEIGHTS.features
      safety := o.safety.getD DEFAULT_WEIGHTS.safety }

/-! Field accessors with the defaults used by catalog_scoring.py
(note `_get_price` defaults to 50000 here, unlike the financial service). -/

def get_price (car : Car) : ℚ := car.base_msrp.getD 50000
def get_mpg_city (car : Car) : ℚ := car.mpg_city.getD 25
def get_mpg_hwy (car : Car) : ℚ := car.mpg_hwy.getD 30
def get_seating (car : Car) : ℤ := car.seats.getD 5
def get_drivetrain (car : Car) : String := car.drivetrain.getD "FWD"
def get_body_style (car : Car) : String := car.body_style.getD "sedan"
def get_fuel_type (car : Car) : String := car.fuel_type.getD "gasoline"
def get_safety_score (car : Car) : ℚ := car.crash_test_score.getD 0.8
def get_driver_assist_features (car : Car) : List String := car.driver_assist.getD []
def is_offroad_capable (car : Car) : Bool := car.offroad_capable.getD false
def get_ground_clearance (car : Car) : ℚ := car.ground_clearance_in.getD 5
def get_child_seat_fit (car : Car) : String := car.rear_seat_child_seat_fit.getD "good"

/-- `_score_budget`; `price / budget_max` can raise on `budget_max == 0`. -/
def score_budget (car : Car) (profile : UserProfile) :
    Except String (ℚ × List String) := do
  let budget_max := profile.budget_max.getD 50000
  let price := get_price car
  if price ≤ budget_max then
    let ratio ← pyDiv price budget_max
    Except.ok (1 - ratio * 0.3,
      if price ≤ budget_max * 0.8 then ["within_budget", "under_budget"]
      else ["within_budget"])
  else
    Except.ok (0.2, [])

/-- `_score_fuel_efficiency`. -/
def score_fuel_efficiency (car : Car) (profile : UserProfile) : ℚ × List String :=
  let avg_mpg := (get_mpg_city car + get_mpg_hwy car) / 2
  let commute := profile.commute_miles.getD 0
  let eco : List String :=
    if get_fuel_type car = "hybrid" ∨ get_fuel_type car = "electric" ∨
        get_fuel_type car = "plug_in_hybrid" then ["eco_friendly"] else []
  if commute > 30 then
    if avg_mpg ≥ 40 then (1, eco ++ ["excellent_mpg"])
    else if avg_mpg ≥ 30 then (0.8, eco ++ ["good_mpg"])
    else if avg_mpg ≥ 25 then (0.6, eco ++ ["decent_mpg"])
    else (0.3, eco)
  else
    if avg_mpg ≥ 30 then (0.7, eco ++ ["good_mpg"]) else (0.7, eco)

/-- `_score_seating`. -/
def score_seating (car : Car) (profile : UserProfile) : ℚ × List String :=
  let passengers_needed := profile.passengers.getD 5
  let seats := get_seating car
  if seats ≥ passengers_needed then
    (1, ["enough_seats"] ++
      (if seats ≥ passengers_needed + 2 then ["extra_space"] else []) ++
      (if profile.has_children.getD false ∧
          (get_child_seat_fit car = "good" ∨ get_child_seat_fit car = "excellent") then
        ["child_seat_friendly"] else []))
  else
    (0.2, [])

/-- `_score_drivetrain`. -/
def score_drivetrain (car : Car) (profile : UserProfile) : ℚ × List String :=
  let features_wanted := profile.features_wanted.getD []
  let terrain := profile.terrain.getD "mixed"
  let drivetrain := get_drivetrain car
  let wants_awd := features_wanted.contains "awd" ∨ terrain = "offroad"
  let has_awd := drivetrain = "AWD" ∨ drivetrain = "4WD"
  if wants_awd ∧ has_awd then (1, ["awd_match"])
  else if wants_awd ∧ ¬ has_awd then (0.4, [])
  else (0.8, [])

/-- `_score_vehicle_type`. -/
def score_vehicle_type (car : Car) (profile : UserProfile) : ℚ × List String :=
  let has_children := profile.has_children.getD false
  let terrain := profile.terrain.getD "mixed"
  let body_style := get_body_style car
  let seats := get_seating car
  if has_children then
    if body_style = "suv" ∨ body_style = "minivan" ∨ seats ≥ 7 then (1, ["family_friendly"])
    else if body_style = "sedan" then (0.7, [])
    else (0.5, [])
  else
    if terrain = "offroad" then
      if is_offroad_capable car ∨ body_style = "truck" then (1, ["offroad_capable"])
      else if get_ground_clearance car ≥ 8 then (0.8, ["good_clearance"])
      else (0.5, [])
    else if body_style = "sedan" ∨ body_style = "hatchback" then (0.9, ["efficient_choice"])
    else (0.8, [])

/-- `_score_performance`. -/
def score_performance (car : Car) (profile : UserProfile) : ℚ × List String :=
  let priorities := profile.priorities.getD []
  let cares := priorities.contains "performance" ∨ priorities.contains "power"
  let avg_mpg := (get_mpg_city car + get_mpg_hwy car) / 2
  if cares then
    if avg_mpg < 25 then (1, ["high_performance"])
    else if avg_mpg < 30 then (0.8, ["good_power"])
    else (0.6, [])
  else
    (0.7, ["adequate_power"])

/-- `feature_map` of `_score_features`: search terms for known features. -/
def feature_map (key : String) : Option (List String) :=
  if key = "apple_carplay" then some ["apple", "carplay"]
  else if key = "android_auto" then some ["android", "auto"]
  else if key = "leather_seats" then some ["leather"]
  else if key = "panoramic_sunroof" then some ["panoramic", "sunroof"]
  else if key = "sunroof" then some ["sunroof"]
  else if key = "blind_spot_monitor" then some ["blind spot", "blind_spot"]
  else if key = "adaptive_cruise" then some ["adaptive cruise", "adaptive_cruise_control"]
  else if key = "lane_departure" then some ["lane", "lane_keep"]
  else if key = "3_row_seating" then some ["3_row", "three_row"]
  else if key = "hybrid" then some ["hybrid"]
  else none

/-- One iteration of the `for wanted in features_wanted` loop of
`_score_features`: number of matches contributed (0, 1 or 2) and the reason
tags appended, in order.  The inner `for term in search_terms: if any(...):
matches += 1; ...; break` increments exactly once iff some search term is a
substring of some lowered driver-assist entry, which is the `List.any`
below. -/
def featureMatch (car : Car) (driver_assist_lower : List String) (wanted : String) :
    ℕ × List String :=
  let wanted_lower := pyLower wanted
  let search_terms := (feature_map wanted_lower).getD [wanted_lower]
  let fromAssist : ℕ × List String :=
    if search_terms.any (fun term => driver_assist_lower.any (fun f => pyIn term f)) then
      (1,
        if pyIn "carplay" wanted_lower ∨ pyIn "apple" wanted_lower then ["has_carplay"]
        else if pyIn "cruise" wanted_lower then ["has_adaptive_cruise"]
        else if pyIn "lane" wanted_lower then ["has_lane_assist"]
        else [])
    else (0, [])
  let fromHybrid : ℕ × List String :=
    if pyIn "hybrid" wanted_lower ∧
        (get_fuel_type car = "hybrid" ∨ get_fuel_type car = "plug_in_hybrid") then
      (1, ["eco_friendly"])
    else (0, [])
  (fromAssist.1 + fromHybrid.1, fromAssist.2 ++ fromHybrid.2)

/-- The whole matching loop of `_score_features`. -/
def featureMatches (car : Car) (driver_assist_lower : List String) :
    List String → ℕ × List String
  | [] => (0, [])
  | w :: ws =>
    let head := featureMatch car driver_assist_lower w
    let rest := featureMatches car driver_assist_lower ws
    (head.1 + rest.1, head.2 ++ rest.2)

/-- `_score_features`; the division `matches / len(features_wanted)` only
runs on a nonempty list. -/
def score_features (car : Car) (profile : UserProfile) :
    Except String (ℚ × List String) :=
  match profile.features_wanted.getD [] with
  | [] => Except.ok (0.7, [])
  | fs@(_ :: _) => do
    let driver_assist_lower :=
      (get_driver_assist_features car).map (fun f => pyUnderscoreToSpace (pyLower f))
    let m := featureMatches car driver_assist_lower fs
    let match_ratio ← pyDiv (m.1 : ℚ) (fs.length : ℚ)
    Except.ok (match_ratio, m.2 ++ (if match_ratio ≥ 0.8 then ["feature_rich"] else []))

/-- `_score_safety`. -/
def score_safety (car : Car) (_profile : UserProfile) : ℚ × List String :=
  let safety_score := get_safety_score car
  let driver_assist := get_driver_assist_features car
  let base : ℚ × List String :=
    if safety_score ≥ 0.9 then (1, ["top_safety"])
    else if safety_score ≥ 0.8 then (0.9, ["excellent_safety"])
    else if safety_score ≥ 0.7 then (0.7, [])
    else (0.5, [])
  (base.1, base.2 ++ (if driver_assist.length ≥ 5 then ["advanced_safety_features"] else []))

/-- `_score_single_car`: weighted sum of the eight factors, reasons appended
in factor order. -/
def score_single_car (car : Car) (profile : UserProfile) :
    Except String (ℚ × List String) := do
  let weights := get_weights profile
  let (budget_score, budget_reasons) ← score_budget car profile
  let (mpg_score, mpg_reasons) := score_fuel_efficiency car profile
  let (seating_score, seating_reasons) := score_seating car profile
  let (drivetrain_score, drivetrain_reasons) := score_drivetrain car profile
  let (type_score, type_reasons) := score_vehicle_type car profile
  let (performance_score, performance_reasons) := score_performance car profile
  let (features_score, features_reasons) ← score_features car profile
  let (safety_score, safety_reasons) := score_safety car profile
  let score := weights.budget * budget_score + weights.fuel_efficiency * mpg_score +
    weights.seating * seating_score + weights.drivetrain * drivetrain_score +
    weights.vehicle_type * type_score + weights.performance * performance_score +
    weights.features * features_score + weights.safety * safety_score
  Except.ok (score,
    budget_reasons ++ mpg_reasons ++ seating_reasons ++ drivetrain_reasons ++
    type_reasons ++ performance_reasons ++ features_reasons ++ safety_reasons)

/-- The `for car in self.cars` loop of `score_cars_for_user`, building the
unsorted scored list in catalog order (scores rounded to 2 decimals). -/
def scoreList (cars : List Car) (profile : UserProfile) :
    Except String (List ScoredCar) :=
  match cars with
  | [] => Except.ok []
  | car :: rest => do
    let (score, reasons) ← score_single_car car profile
    let tail ← scoreList rest profile
    Except.ok ({ id := car.id, score := pyRound2 score, reasons := reasons } :: tail)

/-- Descending-by-score relation used for the stable sort
(`scored_cars.sort(key=lambda x: x["score"], reverse=True)`). -/
def scoreDesc (a b : ScoredCar) : Bool := decide (b.score ≤ a.score)

/-- `score_cars_for_user`: score every catalog car, then stable-sort by
score descending (Python's `list.sort` is stable; `List.mergeSort` is the
stable sort modelling it). -/
def score_cars_for_user (cars : List Car) (profile : UserProfile) :
    Except String (List ScoredCar) := do
  let scored_cars ← scoreList cars profile
  Except.ok (scored_cars.mergeSort scoreDesc)

/-! ## Weight policy (`_priorities_to_weights` in ai_agent.py)

The Python function builds a `dict` keyed by scoring-category names; the
dict is modelled as a partial map `String → Option ℚ` built by the same
sequence of key assignments. -/

/-- `priority_map`: priority tag to scoring category. -/
def priority_map (p : String) : Option String :=
  if p = "fuel_efficiency" then some "fuel_efficiency"
  else if p = "safety" then some "safety"
  else if p = "space" then some "seating"
  else if p = "performance" then some "performance"
  else if p = "budget" then some "budget"
  else none

/-- `all_categories` (fill order of the final loop). -/
def all_categories : List String :=
  ["budget", "fuel_efficiency", "seating", "drivetrain",
   "vehicle_type", "performance", "features", "safety"]

/-- The weights dict under construction. -/
abbrev WMap := String → Option ℚ

def wEmpty : WMap := fun _ => none

/-- `weights[k] = v`. -/
def wSet (w : WMap) (k : String) (v : ℚ) : WMap :=
  fun c => if c = k then some v else w c

/-- One iteration of `for priority in ...: category = priority_map.get(priority);
if category: weights[category] = v`. -/
def wAssign (v : ℚ) (w : WMap) (p : String) : WMap :=
  match priority_map p with
  | some cat => wSet w cat v
  | none => w

/-- The "no top priority" branch: distribute `priority_weight` evenly
(`weight_per_priority = priority_weight if num_priorities == 1 else
priority_weight / num_priorities`). -/
def evenWeights (priorities : List String) : WMap :=
  priorities.foldl
    (wAssign (if priorities.length = 1 then 0.30 else 0.30 / (priorities.length : ℚ)))
    wEmpty

/-- The two assignment loops (top-priority branch or even branch). -/
def assignedWeights (priorities : List String) (top_priority : Option String) : WMap :=
  match top_priority with
  | some t =>
    -- `if top_priority and top_priority in priorities` (an empty string is falsy)
    if t ≠ "" ∧ priorities.contains t then
      let w1 : WMap :=
        match priority_map t with
        | some cat => wSet wEmpty cat 0.45
        | none => wEmpty
      let other_priorities := priorities.filter (fun p => p ≠ t)
      if other_priorities.isEmpty then w1
      else other_priorities.foldl
        (wAssign (0.30 / (other_priorities.length : ℚ))) w1
    else evenWeights priorities
  | none => evenWeights priorities

/-- `for category in all_categories: if category not in weights:
weights[category] = base_weight`. -/
def fillWeights (w : WMap) : WMap :=
  all_categories.foldl (fun w c => if (w c).isSome then w else wSet w c 0.06) w

/-- `total = sum(weights.values())` — the filled dict's keys are exactly
`all_categories` (see `fillWeights_eq` and `assignedWeights_support`). -/
def weightsTotal (w : WMap) : ℚ :=
  (all_categories.map (fun c => (w c).getD 0)).sum

/-- `_priorities_to_weights`.  The final normalization divides by the sum
of the dict values; that sum is provably positive whenever the dict is
nonempty (see `C3_weight_sum_within_004`), so a plain division is
faithful. -/
def priorities_to_weights (priorities : List String) (top_priority : Option String) :
    WMap :=
  if priorities.length = 0 then wEmpty
  else fun c =>
    (fillWeights (assignedWeights priorities top_priority) c).map
      (fun v => pyRound2 (v / weightsTotal (fillWeights (assignedWeights priorities top_priority))))

/-- Sum of the values of a weights dict (its keys are always a subset of
`all_categories`, see `priorities_to_weights_support`). -/
def weightsSum (w : WMap) : ℚ :=
  (all_categories.map (fun c => (w c).getD 0)).sum

/-! ## General lemmas -/

theorem get_interest_rate_pos (cs : CreditScore) : 0 < get_interest_rate cs := by
  rcases cs with z | s <;> simp only [get_interest_rate, INTEREST_RATES]
  · split_ifs <;> norm_num
  · split_ifs <;> simp <;> norm_num

theorem resolvedRate_pos (fp : FinancialProfile) : 0 < resolvedRate fp :=
  get_interest_rate_pos _

/-- For a positive rate and a nonzero term the amortization formula is
defined (no `ZeroDivisionError`). -/
theorem calculate_monthly_payment_ok (L r : ℚ) (n : ℤ) (hr : 0 < r) (hn : n ≠ 0) :
    ∃ mp, calculate_monthly_payment L r n = Except.ok mp := by
  unfold calculate_monthly_payment
  by_cases hL : L ≤ 0
  · exact ⟨0, by simp [hL]⟩
  · have hr0 : r ≠ 0 := ne_of_gt hr
    have hm : 1 < 1 + r / 12 := by
      have : 0 < r / 12 := by positivity
      linarith
    have hz : (1 + r / 12) ^ n - 1 ≠ 0 := by
      rcases hn.lt_or_lt with h | h
      · have := zpow_lt_one_of_neg₀ hm h
        intro hc; rw [sub_eq_zero] at hc; rw [hc] at this; exact lt_irrefl _ this
      · have := one_lt_zpow₀ hm h
        intro hc; rw [sub_eq_zero] at hc; rw [hc] at this; exact lt_irrefl _ this
    refine ⟨L * (r / 12 * (1 + r / 12) ^ n) / ((1 + r / 12) ^ n - 1), ?_⟩
    rw [if_neg hL, if_neg hr0]
    simp [pyDiv, hz]

/-- Inversion principle for `evaluate_affordability`. -/
theorem evaluate_affordability_ok {car : Car} {fp : FinancialProfile}
    {r : AffordabilityResult} (h : evaluate_affordability car fp = Except.ok r) :
    ∃ mp, calculate_monthly_payment (loanAmount car fp) (resolvedRate fp)
        (resolvedLoanTerm fp) = Except.ok mp ∧ r = affordabilityFrom car fp mp := by
  unfold evaluate_affordability at h
  rcases hcmp : calculate_monthly_payment (loanAmount car fp) (resolvedRate fp)
      (resolvedLoanTerm fp) with e | mp
  · rw [hcmp] at h; exact absurd h (by simp)
  · rw [hcmp] at h; exact ⟨mp, rfl, by injection h with h; exact h.symm⟩

theorem evaluate_affordability_of_payment {car : Car} {fp : FinancialProfile} {mp : ℚ}
    (h : calculate_monthly_payment (loanAmount car fp) (resolvedRate fp)
      (resolvedLoanTerm fp) = Except.ok mp) :
    evaluate_affordability car fp = Except.ok (affordabilityFrom car fp mp) := by
  unfold evaluate_affordability
  rw [h]

/-! ## Concrete inputs used by witnesses and counterexamples -/

/-- A catalog car with every optional field absent. -/
def bareCar : Car := { id := "bare" }

def emptyFP : FinancialProfile := {}

def emptyUP : UserProfile := {}


/-- `pyLower` on the default credit category. -/
theorem pyLower_good : pyLower "good" = "good" := by decide

/-! ## Claim C6 -/

/-- **C6.** For every vehicle and every financial profile whose resolved
monthly income is 0 (`monthly_income` absent or 0 and `annual_income`
absent or 0), `evaluate_affordability` returns `debt_to_income_ratio = 1.0`
and `affordable = false`.  (The resolved loan term — default 60 — must be
nonzero for the amortization division to be defined.) -/
theorem C6_zero_income_unaffordable (car : Car) (fp : FinancialProfile)
    (h1 : fp.monthly_income = none ∨ fp.monthly_income = some 0)
    (h2 : fp.annual_income = none ∨ fp.annual_income = some 0)
    (h3 : resolvedLoanTerm fp ≠ 0) :
    (evaluate_affordability car fp).toOption.map
      (fun r => (r.debt_to_income_ratio, r.affordable)) = some (1, false) := by
  have hinc : resolvedMonthlyIncome fp = 0 := by
    rcases h1 with h1 | h1 <;> rcases h2 with h2 | h2 <;>
      simp [resolvedMonthlyIncome, h1, h2]
  obtain ⟨mp, hmp⟩ := calculate_monthly_payment_ok (loanAmount car fp) (resolvedRate fp)
    (resolvedLoanTerm fp) (resolvedRate_pos fp) h3
  rw [evaluate_affordability_of_payment hmp]
  show some _ = some _
  have hdti : pyRound3 1 = 1 := by norm_num [pyRound3, pyRoundInt]
  simp [affordabilityFrom, hinc, determine_affordability, hdti]

/-- Witness for C6 at the all-defaults car and profile. -/
theorem C6_zero_income_unaffordable_witness :
    (emptyFP.monthly_income = none ∨ emptyFP.monthly_income = some 0) ∧
    (emptyFP.annual_income = none ∨ emptyFP.annual_income = some 0) ∧
    resolvedLoanTerm emptyFP ≠ 0 ∧
    (evaluate_affordability bareCar emptyFP).toOption.map
      (fun r => (r.debt_to_income_ratio, r.affordable)) = some (1, false) :=
  ⟨Or.inl rfl, Or.inl rfl, by decide,
    C6_zero_income_unaffordable bareCar emptyFP (Or.inl rfl) (Or.inl rfl) (by decide)⟩

/-! ## Claim C8 -/

/-- **C8 (amended).** If the profile supplies `down_payment = 0` or omits
it, the returned `down_payment_required` equals 0.10 × price plus the
trade-in value, **rounded to 2 decimal places** (the source rounds this
field with `round(..., 2)`). -/
theorem C8_down_payment_default (car : Car) (fp : FinancialProfile)
    (h1 : fp.down_payment = none ∨ fp.down_payment = some 0)
    (h3 : resolvedLoanTerm fp ≠ 0) :
    (evaluate_affordability car fp).toOption.map (fun r => r.down_payment_required) =
      some (pyRound2 (get_car_price car * MIN_DOWN_PAYMENT_PERCENT +
        fp.trade_in_value.getD 0)) := by
  obtain ⟨mp, hmp⟩ := calculate_monthly_payment_ok (loanAmount car fp) (resolvedRate fp)
    (resolvedLoanTerm fp) (resolvedRate_pos fp) h3
  rw [evaluate_affordability_of_payment hmp]
  show some _ = some _
  have hdp : resolvedDownPayment car fp = get_car_price car * MIN_DOWN_PAYMENT_PERCENT := by
    rcases h1 with h1 | h1 <;> simp [resolvedDownPayment, h1]
  simp [affordabilityFrom, effectiveDownPayment, hdp]

def w8car : Car := { id := "w8", base_msrp := some 100 }
def w8fp : FinancialProfile := { trade_in_value := some 7 }

/-- Witness for C8: price 100, no supplied down payment, trade-in 7;
`down_payment_required` is 0.10 × 100 + 7 = 17. -/
theorem C8_down_payment_default_witness :
    ((w8fp.down_payment = none ∨ w8fp.down_payment = some 0) ∧
      resolvedLoanTerm w8fp ≠ 0) ∧
    (evaluate_affordability w8car w8fp).toOption.map (fun r => r.down_payment_required) =
      some (pyRound2 (get_car_price w8car * MIN_DOWN_PAYMENT_PERCENT +
        w8fp.trade_in_value.getD 0)) :=
  ⟨⟨Or.inl rfl, by decide⟩, C8_down_payment_default w8car w8fp (Or.inl rfl) (by decide)⟩

def c8car : Car := { id := "c8", base_msrp := some 19999.99 }
def c8fp : FinancialProfile := { monthly_income := some 5000, trade_in_value := some 18000 }

/-- Counterexample to C8 as stated: for price \$19999.99 with an \$18000
trade-in and no supplied down payment, the returned `down_payment_required`
is 20000.00, not the exact 0.10 × 19999.99 + 18000 = 19999.999. -/
theorem C8_counterexample :
    (evaluate_affordability c8car c8fp).toOption.map
      (fun r => r.down_payment_required) = some 20000 ∧
    (20000 : ℚ) ≠ 0.10 * 19999.99 + 18000 := by
  constructor
  · norm_num [evaluate_affordability, affordabilityFrom, calculate_monthly_payment,
      calculate_total_cost_ownership, determine_affordability, calculate_affordability_score,
      generate_affordability_reasons, generate_warnings, loanAmount, resolvedRate,
      resolvedLoanTerm, resolvedMonthlyIncome, resolvedDownPayment, effectiveDownPayment,
      resolvedCreditScore, get_car_price, get_interest_rate, INTEREST_RATES, pyLower_good,
      pyRound2, pyRound3, pyRoundInt, pyDiv, MAX_DTI, RECOMMENDED_DTI,
      MIN_DOWN_PAYMENT_PERCENT, RECOMMENDED_DOWN_PAYMENT_PERCENT, c8car, c8fp]
    simp [Except.toOption]
  · norm_num

/-! ## Claim C5 -/

/-- **C5 (amended).** When the three operating-cost fields are present,
the returned `total_cost_5yr` equals monthly_payment × min(loan_term_months,
60) + 5 × (annual_fuel_cost + annual_insurance + annual_maintenance),
**rounded to 2 decimal places**; the internally computed depreciation
figure (60% of price) is not added to it. -/
theorem C5_total_cost (car : Car) (fp : FinancialProfile) (f i m mp : ℚ)
    (hf : car.annual_fuel_cost = some f)
    (hi : car.annual_insurance = some i)
    (hm : car.annual_maintenance = some m)
    (hmp : calculate_monthly_payment (loanAmount car fp) (resolvedRate fp)
      (resolvedLoanTerm fp) = Except.ok mp) :
    (evaluate_affordability car fp).toOption.map (fun r => r.total_cost_5yr) =
      some (pyRound2 (mp * ((min (resolvedLoanTerm fp) 60 : ℤ) : ℚ) + 5 * (f + i + m))) := by
  rw [evaluate_affordability_of_payment hmp]
  show some _ = some _
  rw [Option.some.injEq]
  simp only [affordabilityFrom, calculate_total_cost_ownership, hf, hi, hm, Option.getD_some]
  congr 1
  ring

def w5car : Car :=
  { id := "w5", base_msrp := some 100, annual_fuel_cost := some 100,
    annual_insurance := some 200, annual_maintenance := some 300 }
def w5fp : FinancialProfile := { trade_in_value := some 90 }

/-- Witness for C5: the trade-in covers the whole price, the payment is 0
and the total cost is 5 × (100 + 200 + 300) = 3000. -/
theorem C5_total_cost_witness :
    calculate_monthly_payment (loanAmount w5car w5fp) (resolvedRate w5fp)
      (resolvedLoanTerm w5fp) = Except.ok 0 ∧
    (evaluate_affordability w5car w5fp).toOption.map (fun r => r.total_cost_5yr) =
      some (pyRound2 (0 * ((min (resolvedLoanTerm w5fp) 60 : ℤ) : ℚ) + 5 * (100 + 200 + 300))) := by
  have h : calculate_monthly_payment (loanAmount w5car w5fp) (resolvedRate w5fp)
      (resolvedLoanTerm w5fp) = Except.ok 0 := by
    norm_num [calculate_monthly_payment, loanAmount, resolvedRate, resolvedLoanTerm,
      resolvedCreditScore, get_interest_rate, INTEREST_RATES, pyLower_good, pyDiv,
      effectiveDownPayment, resolvedDownPayment, get_car_price, MIN_DOWN_PAYMENT_PERCENT,
      w5car, w5fp]
  exact ⟨h, C5_total_cost w5car w5fp 100 200 300 0 rfl rfl rfl h⟩

def c5car : Car :=
  { id := "c5", base_msrp := some 100, annual_fuel_cost := some 1200.0006,
    annual_insurance := some 1200, annual_maintenance := some 800 }

/-- Counterexample to C5 as stated: with `annual_fuel_cost = 1200.0006`
and a zero monthly payment the exact formula gives 16000.003, while the
returned `total_cost_5yr` is the rounded 16000.00. -/
theorem C5_counterexample :
    calculate_monthly_payment (loanAmount c5car w5fp) (resolvedRate w5fp)
      (resolvedLoanTerm w5fp) = Except.ok 0 ∧
    (evaluate_affordability c5car w5fp).toOption.map (fun r => r.total_cost_5yr) =
      some 16000 ∧
    (16000 : ℚ) ≠ 0 * ((min (resolvedLoanTerm w5fp) 60 : ℤ) : ℚ) +
      5 * (1200.0006 + 1200 + 800) := by
  refine ⟨?_, ?_, ?_⟩
  · norm_num [calculate_monthly_payment, loanAmount, resolvedRate, resolvedLoanTerm,
      resolvedCreditScore, get_interest_rate, INTEREST_RATES, pyLower_good, pyDiv,
      effectiveDownPayment, resolvedDownPayment, get_car_price, MIN_DOWN_PAYMENT_PERCENT,
      c5car, w5fp]
  · norm_num [evaluate_affordability, affordabilityFrom, calculate_monthly_payment,
      calculate_total_cost_ownership, determine_affordability, calculate_affordability_score,
      generate_affordability_reasons, generate_warnings, loanAmount, resolvedRate,
      resolvedLoanTerm, resolvedMonthlyIncome, resolvedDownPayment, effectiveDownPayment,
      resolvedCreditScore, get_car_price, get_interest_rate, INTEREST_RATES, pyLower_good,
      pyRound2, pyRound3, pyRoundInt, pyDiv, MAX_DTI, RECOMMENDED_DTI,
      MIN_DOWN_PAYMENT_PERCENT, RECOMMENDED_DOWN_PAYMENT_PERCENT, c5car, w5fp]
    simp [Except.toOption]
  · norm_num [resolvedLoanTerm, w5fp]

/-! ## Claim C1 -/

/-- **C1 (amended).** `affordable` is true iff the resolved monthly income
is positive, the debt-to-income ratio (monthly_payment / monthly_income)
is at most 0.15, and the supplied (or auto-defaulted 10%-of-price) down
payment **excluding the trade-in value** is at least 0.10 × the vehicle
price.  (The source passes the pre-trade-in `down_payment` to
`_determine_affordability`, not `effective_down_payment`.) -/
theorem C1_affordable_iff (car : Car) (fp : FinancialProfile) (mp : ℚ)
    (r : AffordabilityResult)
    (hmp : calculate_monthly_payment (loanAmount car fp) (resolvedRate fp)
      (resolvedLoanTerm fp) = Except.ok mp)
    (hr : evaluate_affordability car fp = Except.ok r) :
    r.affordable = true ↔
      0 < resolvedMonthlyIncome fp ∧
      mp / resolvedMonthlyIncome fp ≤ MAX_DTI ∧
      get_car_price car * MIN_DOWN_PAYMENT_PERCENT ≤ resolvedDownPayment car fp := by
  rw [evaluate_affordability_of_payment hmp] at hr
  injection hr with hr
  subst hr
  simp only [affordabilityFrom, determine_affordability]
  by_cases h0 : resolvedMonthlyIncome fp = 0
  · rw [if_pos h0]
    simp [h0]
  · rw [if_neg h0]
    rcases lt_or_gt_of_ne h0 with hneg | hpos
    · rw [if_neg (not_lt.mpr hneg.le), if_pos
        (show (1 : ℚ) > MAX_DTI by norm_num [MAX_DTI])]
      simp only [Bool.false_eq_true, false_iff]
      rintro ⟨hp, -⟩
      exact absurd hp (not_lt.mpr hneg.le)
    · rw [if_pos hpos]
      by_cases hdti : mp / resolvedMonthlyIncome fp > MAX_DTI
      · rw [if_pos hdti]
        simp only [Bool.false_eq_true, false_iff]
        rintro ⟨-, hd, -⟩
        exact absurd hd (not_le.mpr hdti)
      · rw [if_neg hdti]
        by_cases hdp : resolvedDownPayment car fp <
            get_car_price car * MIN_DOWN_PAYMENT_PERCENT
        · rw [if_pos hdp]
          simp only [Bool.false_eq_true, false_iff]
          rintro ⟨-, -, hd⟩
          exact absurd hd (not_le.mpr hdp)
        · rw [if_neg hdp]
          exact iff_of_true rfl ⟨hpos, not_lt.mp hdti, not_lt.mp hdp⟩

def w1car : Car := { id := "w1", base_msrp := some 10000 }
def w1fp : FinancialProfile := { monthly_income := some 5000, down_payment := some 10000 }

def w1res : AffordabilityResult where
  affordable := true
  affordability_score := 1
  monthly_payment := 0
  down_payment_required := 10000
  total_cost_5yr := 16000
  debt_to_income_ratio := 0
  reasons := ["excellent_payment_ratio", "strong_down_payment"]
  warnings := []

/-- Witness for C1: price 10000, income 5000, cash down payment 10000, no
trade-in; the loan is 0, the payment 0, and the car is affordable. -/
theorem C1_affordable_iff_witness :
    calculate_monthly_payment (loanAmount w1car w1fp) (resolvedRate w1fp)
      (resolvedLoanTerm w1fp) = Except.ok 0 ∧
    evaluate_affordability w1car w1fp = Except.ok w1res ∧
    (w1res.affordable = true ↔
      0 < resolvedMonthlyIncome w1fp ∧
      (0 : ℚ) / resolvedMonthlyIncome w1fp ≤ MAX_DTI ∧
      get_car_price w1car * MIN_DOWN_PAYMENT_PERCENT ≤ resolvedDownPayment w1car w1fp) := by
  have h1 : calculate_monthly_payment (loanAmount w1car w1fp) (resolvedRate w1fp)
      (resolvedLoanTerm w1fp) = Except.ok 0 := by
    norm_num [calculate_monthly_payment, loanAmount, resolvedRate, resolvedLoanTerm,
      resolvedCreditScore, get_interest_rate, INTEREST_RATES, pyLower_good, pyDiv,
      effectiveDownPayment, resolvedDownPayment, get_car_price, MIN_DOWN_PAYMENT_PERCENT,
      w1car, w1fp]
  have h2 : evaluate_affordability w1car w1fp = Except.ok w1res := by
    norm_num [evaluate_affordability, affordabilityFrom, calculate_monthly_payment,
      calculate_total_cost_ownership, determine_affordability, calculate_affordability_score,
      generate_affordability_reasons, generate_warnings, loanAmount, resolvedRate,
      resolvedLoanTerm, resolvedMonthlyIncome, resolvedDownPayment, effectiveDownPayment,
      resolvedCreditScore, get_car_price, get_interest_rate, INTEREST_RATES, pyLower_good,
      pyRound2, pyRound3, pyRoundInt, pyDiv, MAX_DTI, RECOMMENDED_DTI,
      MIN_DOWN_PAYMENT_PERCENT, RECOMMENDED_DOWN_PAYMENT_PERCENT, w1car, w1fp, w1res]
    decide
  exact ⟨h1, h2, C1_affordable_iff w1car w1fp 0 w1res h1 h2⟩

def c1car : Car := { id := "c1", base_msrp := some 10000 }
def c1fp : FinancialProfile :=
  { monthly_income := some 5000, down_payment := some 500, trade_in_value := some 9500 }

/-- Counterexample to C1 as stated: price 10000, income 5000, cash down
payment 500 plus trade-in 9500.  The effective down payment is 10000 ≥
0.10 × price, the income is positive and the DTI ratio (0) is at most
0.15, yet the source reports `affordable = false`, because its check uses
the pre-trade-in down payment 500 < 1000. -/
theorem C1_counterexample :
    calculate_monthly_payment (loanAmount c1car c1fp) (resolvedRate c1fp)
      (resolvedLoanTerm c1fp) = Except.ok 0 ∧
    (evaluate_affordability c1car c1fp).toOption.map
      (fun r => (r.affordable, r.debt_to_income_ratio)) = some (false, 0) ∧
    0 < resolvedMonthlyIncome c1fp ∧
    (0 : ℚ) / resolvedMonthlyIncome c1fp ≤ MAX_DTI ∧
    get_car_price c1car * MIN_DOWN_PAYMENT_PERCENT ≤ effectiveDownPayment c1car c1fp := by
  refine ⟨?_, ?_, ?_, ?_, ?_⟩
  · norm_num [calculate_monthly_payment, loanAmount, resolvedRate, resolvedLoanTerm,
      resolvedCreditScore, get_interest_rate, INTEREST_RATES, pyLower_good, pyDiv,
      effectiveDownPayment, resolvedDownPayment, get_car_price, MIN_DOWN_PAYMENT_PERCENT,
      c1car, c1fp]
  · norm_num [evaluate_affordability, affordabilityFrom, calculate_monthly_payment,
      calculate_total_cost_ownership, determine_affordability, calculate_affordability_score,
      generate_affordability_reasons, generate_warnings, loanAmount, resolvedRate,
      resolvedLoanTerm, resolvedMonthlyIncome, resolvedDownPayment, effectiveDownPayment,
      resolvedCreditScore, get_car_price, get_interest_rate, INTEREST_RATES, pyLower_good,
      pyRound2, pyRound3, pyRoundInt, pyDiv, MAX_DTI, RECOMMENDED_DTI,
      MIN_DOWN_PAYMENT_PERCENT, RECOMMENDED_DOWN_PAYMENT_PERCENT, c1car, c1fp]
    simp [Except.toOption]
  · norm_num [resolvedMonthlyIncome, c1fp]
  · norm_num [resolvedMonthlyIncome, c1fp, MAX_DTI]
  · norm_num [get_car_price, effectiveDownPayment, resolvedDownPayment,
      MIN_DOWN_PAYMENT_PERCENT, c1car, c1fp]

/-! ## Claim C7 -/

/-- **C7.** The budget factor scores `1 − 0.3 × (price / budget_max)` with
reason tag "within_budget" (plus "under_budget" when price ≤ 0.8 ×
budget_max) whenever price ≤ budget_max, and scores exactly 0.2 with no
reason tags whenever price > budget_max.  (Stated for the positive catalog
prices; a missing `budget_max` defaults to 50000.) -/
theorem C7_budget_factor (car : Car) (profile : UserProfile)
    (hp : 0 < get_price car) :
    (get_price car ≤ profile.budget_max.getD 50000 →
      score_budget car profile = Except.ok
        (1 - get_price car / profile.budget_max.getD 50000 * 0.3,
          if get_price car ≤ profile.budget_max.getD 50000 * 0.8 then
            ["within_budget", "under_budget"]
          else ["within_budget"])) ∧
    (profile.budget_max.getD 50000 < get_price car →
      score_budget car profile = Except.ok (0.2, [])) := by
  constructor
  · intro hle
    have hbm : profile.budget_max.getD 50000 ≠ 0 := ne_of_gt (lt_of_lt_of_le hp hle)
    simp only [score_budget, hle, if_true, if_pos, pyDiv, if_neg hbm]
    rfl
  · intro hgt
    simp [score_budget, not_le.mpr hgt]

def w7car : Car := { id := "w7", base_msrp := some 40000 }

/-- Witness for C7: price 40000 against the default budget 50000 scores
1 − 0.3 × 0.8 = 0.76 with both budget reason tags. -/
theorem C7_budget_factor_witness :
    0 < get_price w7car ∧
    get_price w7car ≤ emptyUP.budget_max.getD 50000 ∧
    score_budget w7car emptyUP = Except.ok
      (1 - get_price w7car / emptyUP.budget_max.getD 50000 * 0.3,
        if get_price w7car ≤ emptyUP.budget_max.getD 50000 * 0.8 then
          ["within_budget", "under_budget"]
        else ["within_budget"]) := by
  have hp : 0 < get_price w7car := by norm_num [get_price, w7car]
  have hle : get_price w7car ≤ emptyUP.budget_max.getD 50000 := by
    norm_num [get_price, w7car, emptyUP]
  exact ⟨hp, hle, (C7_budget_factor w7car emptyUP hp).1 hle⟩

/-! ## Claim C3: lemmas about the weight policy -/

/-- Banker's rounding moves a value by at most 1/2. -/
theorem pyRoundInt_abs_le (q : ℚ) : |(pyRoundInt q : ℚ) - q| ≤ 1/2 := by
  have h1 : (⌊q⌋ : ℚ) ≤ q := Int.floor_le q
  have h2 : q < (⌊q⌋ : ℚ) + 1 := Int.lt_floor_add_one q
  unfold pyRoundInt
  split_ifs with ha hb hc <;> rw [abs_le] <;> constructor <;> push_cast <;> linarith

/-- Rounding to 2 decimals moves a value by at most 1/200. -/
theorem pyRound2_abs_le (q : ℚ) : |pyRound2 q - q| ≤ 1/200 := by
  have h := pyRoundInt_abs_le (q * 100)
  unfold pyRound2
  have heq : (pyRoundInt (q * 100) : ℚ) / 100 - q =
      ((pyRoundInt (q * 100) : ℚ) - q * 100) / 100 := by ring
  rw [heq, abs_div, abs_of_pos (by norm_num : (0:ℚ) < 100)]
  linarith

theorem priority_map_mem {p c : String} (h : priority_map p = some c) :
    c ∈ all_categories := by
  unfold priority_map at h
  split_ifs at h <;> simp_all [all_categories]

/-- The assignment loop writes only positive values. -/
theorem foldl_wAssign_pos (v : ℚ) (hv : 0 < v) (l : List String) :
    ∀ (w : WMap), (∀ c x, w c = some x → 0 < x) →
      ∀ c x, (l.foldl (wAssign v) w) c = some x → 0 < x := by
  induction l with
  | nil => intro w hw; exact hw
  | cons p l ih =>
    intro w hw c x hx
    rw [List.foldl_cons] at hx
    refine ih (wAssign v w p) ?_ c x hx
    intro c' x' hx'
    rcases hpm : priority_map p with _ | cat <;>
      simp only [wAssign, hpm, wSet] at hx'
    · exact hw c' x' hx'
    · by_cases hc : c' = cat
      · rw [if_pos hc] at hx'
        injection hx' with hx'
        rw [← hx']
        exact hv
      · rw [if_neg hc] at hx'
        exact hw c' x' hx'

/-- The assignment loop writes only scoring-category keys. -/
theorem foldl_wAssign_support (v : ℚ) (l : List String) :
    ∀ (w : WMap), (∀ c, (w c).isSome → c ∈ all_categories) →
      ∀ c, ((l.foldl (wAssign v) w) c).isSome → c ∈ all_categories := by
  induction l with
  | nil => intro w hw; exact hw
  | cons p l ih =>
    intro w hw c hx
    rw [List.foldl_cons] at hx
    refine ih (wAssign v w p) ?_ c hx
    intro c' hx'
    rcases hpm : priority_map p with _ | cat <;>
      simp only [wAssign, hpm, wSet] at hx'
    · exact hw c' hx'
    · by_cases hc : c' = cat
      · rw [hc]; exact priority_map_mem hpm
      · rw [if_neg hc] at hx'
        exact hw c' hx'

theorem wEmpty_pos : ∀ c x, wEmpty c = some x → 0 < x := by
  intro c x hx
  exact absurd hx (by simp [wEmpty])

theorem evenWeights_pos (ps : List String) (hps : ps ≠ []) :
    ∀ c x, evenWeights ps c = some x → 0 < x := by
  have hlen : 0 < (ps.length : ℚ) := by
    have := List.length_pos.mpr hps
    exact_mod_cast this
  unfold evenWeights
  refine foldl_wAssign_pos _ ?_ ps wEmpty wEmpty_pos
  split_ifs
  · norm_num
  · exact div_pos (by norm_num) hlen

theorem assignedWeights_pos (ps : List String) (top : Option String) (hps : ps ≠ []) :
    ∀ c x, assignedWeights ps top c = some x → 0 < x := by
  rcases top with _ | t <;> simp only [assignedWeights]
  · exact evenWeights_pos ps hps
  · by_cases htop : t ≠ "" ∧ ps.contains t
    · rw [if_pos htop]
      have hw1 : ∀ c x, (match priority_map t with
          | some cat => wSet wEmpty cat 0.45
          | none => wEmpty) c = some x → 0 < x := by
        rcases hpm : priority_map t with _ | cat <;> simp only [hpm, wSet]
        · exact wEmpty_pos
        · intro c x hx
          by_cases hc : c = cat
          · rw [if_pos hc] at hx
            injection hx with hx
            rw [← hx]; norm_num
          · rw [if_neg hc] at hx
            exact absurd hx (by simp [wEmpty])
      by_cases hemp : (ps.filter (fun p => p ≠ t)).isEmpty
      · rw [if_pos hemp]
        exact hw1
      · rw [if_neg hemp]
        have hlen : 0 < ((ps.filter (fun p => p ≠ t)).length : ℚ) := by
          have h0 : ps.filter (fun p => p ≠ t) ≠ [] := by
            intro hc
            rw [hc] at hemp
            exact hemp (by simp)
          have := List.length_pos.mpr h0
          exact_mod_cast this
        exact foldl_wAssign_pos _ (div_pos (by norm_num) hlen) _ _ hw1
    · rw [if_neg htop]
      exact evenWeights_pos ps hps

theorem assignedWeights_support (ps : List String) (top : Option String) :
    ∀ c, (assignedWeights ps top c).isSome → c ∈ all_categories := by
  have hempty : ∀ c, (wEmpty c).isSome → c ∈ all_categories := by
    intro c hc
    exact absurd hc (by simp [wEmpty])
  have heven : ∀ c, (evenWeights ps c).isSome → c ∈ all_categories := by
    unfold evenWeights
    exact foldl_wAssign_support _ ps wEmpty hempty
  rcases top with _ | t <;> simp only [assignedWeights]
  · exact heven
  · by_cases htop : t ≠ "" ∧ ps.contains t
    · rw [if_pos htop]
      have hw1 : ∀ c, ((match priority_map t with
          | some cat => wSet wEmpty cat 0.45
          | none => wEmpty) c).isSome → c ∈ all_categories := by
        rcases hpm : priority_map t with _ | cat <;> simp only [hpm, wSet]
        · exact hempty
        · intro c hx
          by_cases hc : c = cat
          · rw [hc]; exact priority_map_mem hpm
          · rw [if_neg hc] at hx
            exact hempty c hx
      by_cases hemp : (ps.filter (fun p => p ≠ t)).isEmpty
      · rw [if_pos hemp]
        exact hw1
      · rw [if_neg hemp]
        exact foldl_wAssign_support _ _ _ hw1
    · rw [if_neg htop]
      exact heven

/-- Effect of the fill loop on an arbitrary key. -/
theorem fillFold_eq (l : List String) (w : WMap) (c : String) :
    (l.foldl (fun w c => if (w c).isSome then w else wSet w c 0.06) w) c =
      if w c = none ∧ c ∈ l then some 0.06 else w c := by
  induction l generalizing w with
  | nil => simp
  | cons a l ih =>
    rw [List.foldl_cons, ih]
    by_cases ha : (w a).isSome
    · rw [if_pos ha]
      by_cases hc : c = a
      · subst hc
        have hne : ¬ w c = none := by
          intro h
          rw [h] at ha
          exact absurd ha (by simp)
        simp [hne]
      · simp [hc]
    · rw [if_neg ha]
      have hwa : w a = none := by
        cases h : w a with
        | none => rfl
        | some x =>
          rw [h] at ha
          exact absurd (by simp) ha
      by_cases hc : c = a
      · subst hc
        simp [wSet, hwa]
      · simp [wSet, hc]

theorem fillWeights_eq (w : WMap) (c : String) :
    fillWeights w c = if w c = none ∧ c ∈ all_categories then some 0.06 else w c :=
  fillFold_eq all_categories w c

/-- Every final weights-dict key is one of the eight scoring categories. -/
theorem priorities_to_weights_support (ps : List String) (top : Option String) :
    ∀ c, (priorities_to_weights ps top c).isSome → c ∈ all_categories := by
  intro c h
  unfold priorities_to_weights at h
  by_cases h0 : ps.length = 0
  · rw [if_pos h0] at h
    exact absurd h (by simp [wEmpty])
  · rw [if_neg h0] at h
    simp only [Option.isSome_map'] at h
    rw [fillWeights_eq] at h
    by_cases hfill : assignedWeights ps top c = none ∧ c ∈ all_categories
    · exact hfill.2
    · rw [if_neg hfill] at h
      exact assignedWeights_support ps top c h

/-- **C3 (amended).** For every *nonempty* priorities list (with or without
a designated top priority) the weight map returned by
`_priorities_to_weights` has values summing to 1.0 within ±0.04 (eight
entries each rounded to 2 decimals can each move by up to 0.005).  The
claimed ±0.01 bound fails (see `C3_counterexample`), and the empty list
returns an empty map whose values sum to 0. -/
theorem C3_weight_sum_within_004 (ps : List String) (top : Option String)
    (hps : ps ≠ []) :
    |weightsSum (priorities_to_weights ps top) - 1| ≤ 1/25 := by
  have hpos := assignedWeights_pos ps top hps
  have hsome : ∀ c ∈ all_categories,
      ∃ v, fillWeights (assignedWeights ps top) c = some v ∧ 0 < v := by
    intro c hc
    rw [fillWeights_eq]
    rcases hA : assignedWeights ps top c with _ | v
    · exact ⟨0.06, by simp [hc], by norm_num⟩
    · refine ⟨v, ?_, hpos c v hA⟩
      simp [hA]
  obtain ⟨v1, hv1, hp1⟩ := hsome "budget" (by simp [all_categories])
  obtain ⟨v2, hv2, hp2⟩ := hsome "fuel_efficiency" (by simp [all_categories])
  obtain ⟨v3, hv3, hp3⟩ := hsome "seating" (by simp [all_categories])
  obtain ⟨v4, hv4, hp4⟩ := hsome "drivetrain" (by simp [all_categories])
  obtain ⟨v5, hv5, hp5⟩ := hsome "vehicle_type" (by simp [all_categories])
  obtain ⟨v6, hv6, hp6⟩ := hsome "performance" (by simp [all_categories])
  obtain ⟨v7, hv7, hp7⟩ := hsome "features" (by simp [all_categories])
  obtain ⟨v8, hv8, hp8⟩ := hsome "safety" (by simp [all_categories])
  have hT : weightsTotal (fillWeights (assignedWeights ps top)) =
      v1 + v2 + v3 + v4 + v5 + v6 + v7 + v8 := by
    simp [weightsTotal, all_categories, hv1, hv2, hv3, hv4, hv5, hv6, hv7, hv8]
    ring
  have hTpos : 0 < weightsTotal (fillWeights (assignedWeights ps top)) := by
    rw [hT]; linarith
  have hlen0 : ¬ ps.length = 0 := by simpa using hps
  unfold priorities_to_weights
  rw [if_neg hlen0]
  simp only [weightsSum, all_categories, List.map_cons, List.map_nil, List.sum_cons,
    List.sum_nil, hv1, hv2, hv3, hv4, hv5, hv6, hv7, hv8, Option.map_some',
    Option.getD_some, add_zero]
  generalize hTg : weightsTotal (fillWeights (assignedWeights ps top)) = T at hT hTpos ⊢
  have hdistrib : v1/T + v2/T + v3/T + v4/T + v5/T + v6/T + v7/T + v8/T =
      (v1 + v2 + v3 + v4 + v5 + v6 + v7 + v8)/T := by ring
  have hsum1 : v1/T + v2/T + v3/T + v4/T + v5/T + v6/T + v7/T + v8/T = 1 := by
    rw [hdistrib, ← hT, div_self (ne_of_gt hTpos)]
  have b1 := pyRound2_abs_le (v1 / T)
  have b2 := pyRound2_abs_le (v2 / T)
  have b3 := pyRound2_abs_le (v3 / T)
  have b4 := pyRound2_abs_le (v4 / T)
  have b5 := pyRound2_abs_le (v5 / T)
  have b6 := pyRound2_abs_le (v6 / T)
  have b7 := pyRound2_abs_le (v7 / T)
  have b8 := pyRound2_abs_le (v8 / T)
  rw [abs_le] at b1 b2 b3 b4 b5 b6 b7 b8 ⊢
  constructor <;> linarith

/-- Witness for C3 at `priorities = ["safety"]`. -/
theorem C3_weight_sum_within_004_witness :
    (["safety"] : List String) ≠ [] ∧
    |weightsSum (priorities_to_weights ["safety"] none) - 1| ≤ 1/25 :=
  ⟨by simp, C3_weight_sum_within_004 ["safety"] none (by simp)⟩

/-- Counterexample to C3 as stated: a single recognized priority gives
normalized pre-round weights 0.30/0.72 and 0.06/0.72, which round to 0.42
and 7 × 0.08, summing to 0.98 — off by 0.02 > 0.01. -/
theorem C3_counterexample :
    weightsSum (priorities_to_weights ["fuel_efficiency"] none) = 49/50 ∧
    ¬ |(49:ℚ)/50 - 1| ≤ 1/100 := by
  constructor
  · simp [priorities_to_weights, assignedWeights, evenWeights, fillWeights,
      weightsTotal, weightsSum, all_categories, wAssign, wSet, wEmpty, priority_map,
      List.foldl_cons, List.foldl_nil]
    norm_num [pyRound2, pyRoundInt]
  · rw [show (49:ℚ)/50 - 1 = -(1/50) by norm_num, abs_neg,
      abs_of_pos (by norm_num : (0:ℚ) < 1/50)]
    norm_num

/-! ## Scoring-engine lemmas -/

theorem pyRoundInt_nonneg (q : ℚ) (h : 0 ≤ q) : 0 ≤ pyRoundInt q := by
  have h0 : 0 ≤ ⌊q⌋ := Int.floor_nonneg.mpr h
  unfold pyRoundInt
  split_ifs <;> omega

theorem pyRoundInt_le (q : ℚ) (n : ℤ) (h : q ≤ (n : ℚ)) : pyRoundInt q ≤ n := by
  have h0 : ⌊q⌋ ≤ n := by
    have := Int.floor_le_floor h
    simpa using this
  have h1 : (⌊q⌋ : ℚ) ≤ q := Int.floor_le q
  unfold pyRoundInt
  split_ifs with ha hb hc
  · exact h0
  · -- q - ⌊q⌋ > 1/2, so ⌊q⌋ < n as rationals, hence ⌊q⌋ + 1 ≤ n
    have hq : (⌊q⌋ : ℚ) < n := by linarith
    have : ⌊q⌋ < n := by exact_mod_cast hq
    omega
  · exact h0
  · have hq : (⌊q⌋ : ℚ) < n := by
      have hfrac : (1:ℚ)/2 ≤ q - ⌊q⌋ := le_of_not_lt ha
      linarith
    have : ⌊q⌋ < n := by exact_mod_cast hq
    omega

theorem pyRound2_nonneg (q : ℚ) (h : 0 ≤ q) : 0 ≤ pyRound2 q := by
  unfold pyRound2
  have : (0:ℤ) ≤ pyRoundInt (q * 100) := pyRoundInt_nonneg _ (by linarith)
  positivity

theorem pyRound2_le_div100 (q : ℚ) (n : ℤ) (h : q ≤ (n : ℚ)/100) : pyRound2 q ≤ (n : ℚ)/100 := by
  unfold pyRound2
  have h1 : q * 100 ≤ (n : ℚ) := by linarith
  have h2 : pyRoundInt (q * 100) ≤ n := pyRoundInt_le _ _ h1
  have h3 : (pyRoundInt (q * 100) : ℚ) ≤ (n : ℚ) := by exact_mod_cast h2
  linarith

theorem score_budget_eq_of_le (car : Car) (p : UserProfile)
    (hbm : p.budget_max.getD 50000 ≠ 0)
    (hle : get_price car ≤ p.budget_max.getD 50000) :
    score_budget car p = Except.ok
      (1 - get_price car / p.budget_max.getD 50000 * 0.3,
        if get_price car ≤ p.budget_max.getD 50000 * 0.8 then
          ["within_budget", "under_budget"]
        else ["within_budget"]) := by
  simp only [score_budget, if_pos hle, pyDiv, if_neg hbm]
  rfl

theorem score_budget_eq_of_gt (car : Car) (p : UserProfile)
    (hgt : p.budget_max.getD 50000 < get_price car) :
    score_budget car p = Except.ok (0.2, []) := by
  simp [score_budget, not_le.mpr hgt]

theorem score_budget_ok (car : Car) (p : UserProfile)
    (hbm : p.budget_max.getD 50000 ≠ 0) :
    ∃ s r, score_budget car p = Except.ok (s, r) := by
  by_cases hle : get_price car ≤ p.budget_max.getD 50000
  · exact ⟨_, _, score_budget_eq_of_le car p hbm hle⟩
  · exact ⟨_, _, score_budget_eq_of_gt car p (not_le.mp hle)⟩

theorem score_budget_bounds (car : Car) (p : UserProfile)
    (hp : 0 ≤ get_price car) (hbm : 0 < p.budget_max.getD 50000)
    {s : ℚ} {r : List String} (h : score_budget car p = Except.ok (s, r)) :
    0 ≤ s ∧ s ≤ 1 := by
  by_cases hle : get_price car ≤ p.budget_max.getD 50000
  · rw [score_budget_eq_of_le car p (ne_of_gt hbm) hle] at h
    injection h with h
    rw [Prod.mk.injEq] at h
    obtain ⟨h1, -⟩ := h
    have hr1 : 0 ≤ get_price car / p.budget_max.getD 50000 := div_nonneg hp (le_of_lt hbm)
    have hr2 : get_price car / p.budget_max.getD 50000 ≤ 1 := (div_le_one hbm).mpr hle
    constructor <;> rw [← h1] <;> linarith
  · rw [score_budget_eq_of_gt car p (not_le.mp hle)] at h
    injection h with h
    rw [Prod.mk.injEq] at h
    obtain ⟨h1, -⟩ := h
    rw [← h1]
    norm_num

theorem score_fuel_efficiency_bounds (car : Car) (p : UserProfile) :
    0 ≤ (score_fuel_efficiency car p).1 ∧ (score_fuel_efficiency car p).1 ≤ 1 := by
  unfold score_fuel_efficiency
  simp only [apply_ite (Prod.fst : ℚ × List String → ℚ)]
  constructor <;> split_ifs <;> norm_num

theorem score_seating_bounds (car : Car) (p : UserProfile) :
    0 ≤ (score_seating car p).1 ∧ (score_seating car p).1 ≤ 1 := by
  unfold score_seating
  simp only [apply_ite (Prod.fst : ℚ × List String → ℚ)]
  constructor <;> split_ifs <;> norm_num

theorem score_drivetrain_bounds (car : Car) (p : UserProfile) :
    0 ≤ (score_drivetrain car p).1 ∧ (score_drivetrain car p).1 ≤ 1 := by
  unfold score_drivetrain
  simp only [apply_ite (Prod.fst : ℚ × List String → ℚ)]
  constructor <;> split_ifs <;> norm_num

theorem score_vehicle_type_bounds (car : Car) (p : UserProfile) :
    0 ≤ (score_vehicle_type car p).1 ∧ (score_vehicle_type car p).1 ≤ 1 := by
  unfold score_vehicle_type
  simp only [apply_ite (Prod.fst : ℚ × List String → ℚ)]
  constructor <;> split_ifs <;> norm_num

theorem score_performance_bounds (car : Car) (p : UserProfile) :
    0 ≤ (score_performance car p).1 ∧ (score_performance car p).1 ≤ 1 := by
  unfold score_performance
  simp only [apply_ite (Prod.fst : ℚ × List String → ℚ)]
  constructor <;> split_ifs <;> norm_num

theorem score_safety_bounds (car : Car) (p : UserProfile) :
    0 ≤ (score_safety car p).1 ∧ (score_safety car p).1 ≤ 1 := by
  unfold score_safety
  simp only [apply_ite (Prod.fst : ℚ × List String → ℚ)]
  constructor <;> split_ifs <;> norm_num

/-- `Except.ok x >>= f` reduces to `f x`. -/
theorem exceptOkBind {α β : Type} (x : α) (f : α → Except String β) :
    (Except.ok x >>= f : Except String β) = f x := rfl

theorem featureMatch_fst_le_two (car : Car) (da : List String) (w : String) :
    (featureMatch car da w).1 ≤ 2 := by
  unfold featureMatch
  simp only [apply_ite (Prod.fst : ℕ × List String → ℕ)]
  split_ifs <;> norm_num

theorem featureMatches_fst_le (car : Car) (da : List String) :
    ∀ l : List String, (featureMatches car da l).1 ≤ 2 * l.length := by
  intro l
  induction l with
  | nil => simp [featureMatches]
  | cons w ws ih =>
    simp only [featureMatches, List.length_cons]
    have := featureMatch_fst_le_two car da w
    omega

theorem score_features_eq_nil (car : Car) (p : UserProfile)
    (hf : p.features_wanted.getD [] = []) :
    score_features car p = Except.ok (0.7, []) := by
  unfold score_features
  rw [hf]

theorem score_features_eq_cons (car : Car) (p : UserProfile) (w : String) (ws : List String)
    (hf : p.features_wanted.getD [] = w :: ws) :
    score_features car p = Except.ok
      (((featureMatches car
          ((get_driver_assist_features car).map (fun f => pyUnderscoreToSpace (pyLower f)))
          (w :: ws)).1 : ℚ) / ((w :: ws).length : ℚ),
        (featureMatches car
          ((get_driver_assist_features car).map (fun f => pyUnderscoreToSpace (pyLower f)))
          (w :: ws)).2 ++
          (if ((featureMatches car
              ((get_driver_assist_features car).map (fun f => pyUnderscoreToSpace (pyLower f)))
              (w :: ws)).1 : ℚ) / ((w :: ws).length : ℚ) ≥ 0.8 then ["feature_rich"]
            else [])) := by
  have hlen : ((w :: ws).length : ℚ) ≠ 0 := by
    rw [List.length_cons]
    push_cast
    positivity
  unfold score_features
  rw [hf]
  simp only [pyDiv, if_neg hlen, exceptOkBind]

theorem score_features_ok (car : Car) (p : UserProfile) :
    ∃ s r, score_features car p = Except.ok (s, r) := by
  rcases hf : p.features_wanted.getD [] with _ | ⟨w, ws⟩
  · exact ⟨_, _, score_features_eq_nil car p hf⟩
  · exact ⟨_, _, score_features_eq_cons car p w ws hf⟩

theorem score_features_bounds (car : Car) (p : UserProfile)
    {s : ℚ} {r : List String} (h : score_features car p = Except.ok (s, r)) :
    0 ≤ s ∧ s ≤ 2 := by
  rcases hf : p.features_wanted.getD [] with _ | ⟨w, ws⟩
  · rw [score_features_eq_nil car p hf] at h
    injection h with h
    rw [Prod.mk.injEq] at h
    obtain ⟨h1, -⟩ := h
    rw [← h1]
    norm_num
  · rw [score_features_eq_cons car p w ws hf] at h
    injection h with h
    rw [Prod.mk.injEq] at h
    obtain ⟨h1, -⟩ := h
    have hlen : (0:ℚ) < ((w :: ws).length : ℚ) := by
      rw [List.length_cons]
      push_cast
      positivity
    constructor <;> rw [← h1]
    · positivity
    · rw [div_le_iff₀ hlen]
      have hm := featureMatches_fst_le car
        ((get_driver_assist_features car).map (fun f => pyUnderscoreToSpace (pyLower f)))
        (w :: ws)
      calc ((featureMatches car
            ((get_driver_assist_features car).map (fun f => pyUnderscoreToSpace (pyLower f)))
            (w :: ws)).1 : ℚ) ≤ ((2 * (w :: ws).length : ℕ) : ℚ) := by exact_mod_cast hm
        _ = 2 * ((w :: ws).length : ℚ) := by push_cast; ring

theorem get_weights_none {p : UserProfile} (h : p.weights = none) :
    get_weights p = DEFAULT_WEIGHTS := by
  simp [get_weights, h]

/-- Unfolding of `_score_single_car` given the two fallible factors. -/
theorem score_single_car_eq (car : Car) (p : UserProfile) (bs fs : ℚ)
    (br fr : List String)
    (hb : score_budget car p = Except.ok (bs, br))
    (hf : score_features car p = Except.ok (fs, fr)) :
    score_single_car car p = Except.ok
      ((get_weights p).budget * bs +
        (get_weights p).fuel_efficiency * (score_fuel_efficiency car p).1 +
        (get_weights p).seating * (score_seating car p).1 +
        (get_weights p).drivetrain * (score_drivetrain car p).1 +
        (get_weights p).vehicle_type * (score_vehicle_type car p).1 +
        (get_weights p).performance * (score_performance car p).1 +
        (get_weights p).features * fs +
        (get_weights p).safety * (score_safety car p).1,
        br ++ (score_fuel_efficiency car p).2 ++ (score_seating car p).2 ++
          (score_drivetrain car p).2 ++ (score_vehicle_type car p).2 ++
          (score_performance car p).2 ++ fr ++ (score_safety car p).2) := by
  unfold score_single_car
  rw [hb]
  simp only [exceptOkBind, hf]

theorem score_budget_ok' (car : Car) (p : UserProfile) (hp : 0 < get_price car) :
    ∃ s r, score_budget car p = Except.ok (s, r) := by
  by_cases hle : get_price car ≤ p.budget_max.getD 50000
  · exact ⟨_, _, score_budget_eq_of_le car p (ne_of_gt (lt_of_lt_of_le hp hle)) hle⟩
  · exact ⟨_, _, score_budget_eq_of_gt car p (not_le.mp hle)⟩

theorem score_single_car_ok (car : Car) (p : UserProfile) (hp : 0 < get_price car) :
    ∃ s r, score_single_car car p = Except.ok (s, r) := by
  obtain ⟨bs, br, hb⟩ := score_budget_ok' car p hp
  obtain ⟨fs, fr, hf⟩ := score_features_ok car p
  exact ⟨_, _, score_single_car_eq car p bs fs br fr hb hf⟩

/-- With default weights, non-negative price and positive budget cap, the
raw (unrounded) weighted score lies in [0, 1.1]. -/
theorem score_single_car_bounds (car : Car) (p : UserProfile)
    (hp : 0 ≤ get_price car) (hbm : 0 < p.budget_max.getD 50000)
    (hw : p.weights = none) {s : ℚ} {rs : List String}
    (h : score_single_car car p = Except.ok (s, rs)) :
    0 ≤ s ∧ s ≤ 11/10 := by
  obtain ⟨bs, br, hb⟩ := score_budget_ok car p (ne_of_gt hbm)
  obtain ⟨fs, fr, hf⟩ := score_features_ok car p
  rw [score_single_car_eq car p bs fs br fr hb hf] at h
  injection h with h
  rw [Prod.mk.injEq] at h
  obtain ⟨h1, -⟩ := h
  rw [get_weights_none hw] at h1
  simp only [DEFAULT_WEIGHTS] at h1
  have hbb := score_budget_bounds car p hp hbm hb
  have hfb := score_features_bounds car p hf
  have h2 := score_fuel_efficiency_bounds car p
  have h3 := score_seating_bounds car p
  have h4 := score_drivetrain_bounds car p
  have h5 := score_vehicle_type_bounds car p
  have h6 := score_performance_bounds car p
  have h7 := score_safety_bounds car p
  constructor <;> rw [← h1] <;>
    linarith [hbb.1, hbb.2, hfb.1, hfb.2, h2.1, h2.2, h3.1, h3.2, h4.1, h4.2,
      h5.1, h5.2, h6.1, h6.2, h7.1, h7.2]

/-- One step of the scoring loop. -/
theorem scoreList_cons (car : Car) (cars : List Car) (p : UserProfile)
    (s : ℚ) (rs : List String) (tail : List ScoredCar)
    (h1 : score_single_car car p = Except.ok (s, rs))
    (h2 : scoreList cars p = Except.ok tail) :
    scoreList (car :: cars) p =
      Except.ok ({ id := car.id, score := pyRound2 s, reasons := rs } :: tail) := by
  unfold scoreList
  rw [h1]
  simp only [exceptOkBind, h2]

/-- Inversion of one step of the scoring loop. -/
theorem scoreList_cons_inv (car : Car) (cars : List Car) (p : UserProfile)
    (pre : List ScoredCar) (h : scoreList (car :: cars) p = Except.ok pre) :
    ∃ s rs tail, score_single_car car p = Except.ok (s, rs) ∧
      scoreList cars p = Except.ok tail ∧
      pre = { id := car.id, score := pyRound2 s, reasons := rs } :: tail := by
  unfold scoreList at h
  rcases hsc : score_single_car car p with e | ⟨s, rs⟩ <;> rw [hsc] at h
  · exact absurd h (by simp [exceptOkBind]; exact fun h => by cases h)
  · rcases htl : scoreList cars p with e | tail <;>
      simp only [exceptOkBind, htl] at h
    · exact absurd h (by intro h; cases h)
    · refine ⟨s, rs, tail, rfl, rfl, ?_⟩
      replace h : Except.ok ({ id := car.id, score := pyRound2 s, reasons := rs } :: tail) =
          Except.ok pre := h
      injection h with h
      exact h.symm

theorem scoreList_ok (cars : List Car) (p : UserProfile)
    (hprice : ∀ c ∈ cars, 0 < get_price c) :
    ∃ l, scoreList cars p = Except.ok l := by
  induction cars with
  | nil => exact ⟨[], rfl⟩
  | cons car cars ih =>
    obtain ⟨l, hl⟩ := ih (fun c hc => hprice c (List.mem_cons_of_mem car hc))
    obtain ⟨s, rs, hsc⟩ := score_single_car_ok car p (hprice car (List.mem_cons_self car cars))
    exact ⟨_, scoreList_cons car cars p s rs l hsc hl⟩

/-- The scoring pipeline is determined by the resolved (defaulted) profile
fields — this is what makes "absent field = documented default" true. -/
theorem score_single_car_congr (car : Car) (p q : UserProfile)
    (h1 : p.budget_max.getD 50000 = q.budget_max.getD 50000)
    (h2 : p.passengers.getD 5 = q.passengers.getD 5)
    (h3 : p.commute_miles.getD 0 = q.commute_miles.getD 0)
    (h4 : p.has_children.getD false = q.has_children.getD false)
    (h5 : p.terrain.getD "mixed" = q.terrain.getD "mixed")
    (h6 : p.features_wanted.getD [] = q.features_wanted.getD [])
    (h7 : p.priorities.getD [] = q.priorities.getD [])
    (h8 : get_weights p = get_weights q) :
    score_single_car car p = score_single_car car q := by
  simp only [score_single_car, score_budget, score_fuel_efficiency, score_seating,
    score_drivetrain, score_vehicle_type, score_performance, score_features,
    score_safety, h1, h2, h3, h4, h5, h6, h7, h8]

theorem scoreList_congr (cars : List Car) (p q : UserProfile)
    (h : ∀ car, score_single_car car p = score_single_car car q) :
    scoreList cars p = scoreList cars q := by
  induction cars with
  | nil => rfl
  | cons car cars ih =>
    unfold scoreList
    rw [h car, ih]

theorem score_cars_congr (cars : List Car) (p q : UserProfile)
    (h : ∀ car, score_single_car car p = score_single_car car q) :
    score_cars_for_user cars p = score_cars_for_user cars q := by
  unfold score_cars_for_user
  rw [scoreList_congr cars p q h]

/-- The descending-score relation is transitive and total. -/
theorem scoreDesc_trans : ∀ a b c : ScoredCar, scoreDesc a b → scoreDesc b c → scoreDesc a c := by
  intro a b c hab hbc
  simp only [scoreDesc, decide_eq_true_eq] at *
  exact le_trans hbc hab

theorem scoreDesc_total : ∀ a b : ScoredCar, scoreDesc a b || scoreDesc b a := by
  intro a b
  simp only [scoreDesc, Bool.or_eq_true, decide_eq_true_eq]
  exact le_total b.score a.score

theorem pairwise_of_forall_mem {α : Type} {R : α → α → Prop} :
    ∀ (l : List α), (∀ a ∈ l, ∀ b ∈ l, R a b) → l.Pairwise R := by
  intro l
  induction l with
  | nil => intro _; exact List.Pairwise.nil
  | cons a l ih =>
    intro h
    refine List.Pairwise.cons ?_ (ih ?_)
    · intro b hb
      exact h a (List.mem_cons_self a l) b (List.mem_cons_of_mem a hb)
    · intro x hx y hy
      exact h x (List.mem_cons_of_mem a hx) y (List.mem_cons_of_mem a hy)

/-- `score_cars_for_user` succeeds iff the scoring loop does, and then
returns the stable descending sort of the loop's output. -/
theorem score_cars_eq (cars : List Car) (p : UserProfile) (pre : List ScoredCar)
    (h : scoreList cars p = Except.ok pre) :
    score_cars_for_user cars p = Except.ok (pre.mergeSort scoreDesc) := by
  unfold score_cars_for_user
  rw [h]
  rfl

/-! ## Claim C9 -/

/-- **C9.** For a catalog of positively-priced vehicles,
`score_cars_for_user` never raises, whatever the profile (absent fields
included); a missing `budget_max` behaves exactly like the documented
default 50000 and a missing `passengers` exactly like 5. -/
theorem C9_defensive_defaults (cars : List Car) (p : UserProfile)
    (hprice : ∀ c ∈ cars, 0 < get_price c) :
    (score_cars_for_user cars p).isOk = true ∧
    (p.budget_max = none →
      score_cars_for_user cars p =
        score_cars_for_user cars { p with budget_max := some 50000 }) ∧
    (p.passengers = none →
      score_cars_for_user cars p =
        score_cars_for_user cars { p with passengers := some 5 }) := by
  refine ⟨?_, ?_, ?_⟩
  · obtain ⟨l, hl⟩ := scoreList_ok cars p hprice
    rw [score_cars_eq cars p l hl]
    rfl
  · intro hbm
    refine score_cars_congr cars p _
      (fun car => score_single_car_congr car p _ ?_ ?_ ?_ ?_ ?_ ?_ ?_ ?_) <;>
      simp [hbm, get_weights]
  · intro hpass
    refine score_cars_congr cars p _
      (fun car => score_single_car_congr car p _ ?_ ?_ ?_ ?_ ?_ ?_ ?_ ?_) <;>
      simp [hpass, get_weights]

/-- Witness for C9 at a one-car catalog and the empty profile. -/
theorem C9_defensive_defaults_witness :
    (score_cars_for_user [bareCar] emptyUP).isOk = true ∧
    score_cars_for_user [bareCar] emptyUP =
      score_cars_for_user [bareCar] { emptyUP with budget_max := some 50000 } ∧
    score_cars_for_user [bareCar] emptyUP =
      score_cars_for_user [bareCar] { emptyUP with passengers := some 5 } := by
  have hp : ∀ c ∈ [bareCar], 0 < get_price c := by
    intro c hc
    rw [List.mem_singleton] at hc
    subst hc
    norm_num [get_price, bareCar]
  have h := C9_defensive_defaults [bareCar] emptyUP hp
  exact ⟨h.1, h.2.1 rfl, h.2.2 rfl⟩

/-! ## Claim C2 -/

theorem scoreList_bounds (p : UserProfile)
    (hbm : 0 < p.budget_max.getD 50000) (hw : p.weights = none) :
    ∀ (cars : List Car) (pre : List ScoredCar),
      (∀ c ∈ cars, 0 ≤ get_price c) →
      scoreList cars p = Except.ok pre →
      ∀ e ∈ pre, 0 ≤ e.score ∧ e.score ≤ 11/10 := by
  intro cars
  induction cars with
  | nil =>
    intro pre _ h e he
    rw [show pre = [] from by injection h with h; exact h.symm] at he
    exact absurd he (List.not_mem_nil e)
  | cons car cars ih =>
    intro pre hprice h e he
    obtain ⟨s, rs, tail, hsc, htl, hpre⟩ := scoreList_cons_inv car cars p pre h
    subst hpre
    rcases List.mem_cons.mp he with he | he
    · subst he
      have hb := score_single_car_bounds car p (hprice car (List.mem_cons_self car cars))
        hbm hw hsc
      constructor
      · exact pyRound2_nonneg s hb.1
      · have h110 : pyRound2 s ≤ ((110 : ℤ) : ℚ)/100 :=
          pyRound2_le_div100 s 110 (by push_cast; linarith [hb.2])
        have : ((110 : ℤ) : ℚ)/100 = 11/10 := by norm_num
        rw [this] at h110
        exact h110
    · exact ih tail (fun c hc => hprice c (List.mem_cons_of_mem car hc)) htl e he

/-- **C2 (amended).** For every catalog of vehicles with non-negative
prices and every profile with a positive (or absent, hence 50000) budget
cap and **no weights override**, every score returned by
`score_cars_for_user` lies in [0, 1.1].  The claimed [0, 1] bound is
false: a wanted "hybrid" feature can be double-counted by the features
factor (see `C2_counterexample`), and weight overrides are applied with no
renormalization, which breaks any fixed bound. -/
theorem C2_score_bounds (cars : List Car) (p : UserProfile) (l : List ScoredCar)
    (hprice : ∀ c ∈ cars, 0 ≤ get_price c)
    (hbm : 0 < p.budget_max.getD 50000)
    (hw : p.weights = none)
    (hl : score_cars_for_user cars p = Except.ok l) :
    ∀ e ∈ l, 0 ≤ e.score ∧ e.score ≤ 11/10 := by
  rcases hsl : scoreList cars p with err | pre
  · unfold score_cars_for_user at hl
    rw [hsl] at hl
    exact absurd hl (by intro h; cases h)
  · rw [score_cars_eq cars p pre hsl] at hl
    injection hl with hl
    subst hl
    intro e he
    rw [List.mem_mergeSort] at he
    exact scoreList_bounds p hbm hw cars pre hprice hsl e he

/-! ## Claim C4 -/

/-- **C4.** `score_cars_for_user` output is sorted non-increasing by score,
and entries with equal scores appear in the same relative order as in the
catalog: for every score value, filtering the sorted output yields exactly
the filter of the catalog-ordered scored list (stable sort). -/
theorem C4_sorted_stable (cars : List Car) (p : UserProfile)
    (pre l : List ScoredCar)
    (hpre : scoreList cars p = Except.ok pre)
    (hl : score_cars_for_user cars p = Except.ok l) :
    l.Pairwise (fun a b => b.score ≤ a.score) ∧
    ∀ s : ℚ, l.filter (fun e => decide (e.score = s)) =
      pre.filter (fun e => decide (e.score = s)) := by
  rw [score_cars_eq cars p pre hpre] at hl
  injection hl with hl
  subst hl
  constructor
  · have h := List.sorted_mergeSort scoreDesc_trans scoreDesc_total pre
    exact h.imp (fun hab => by
      simpa [scoreDesc, decide_eq_true_eq] using hab)
  · intro s
    have hpw : (pre.filter (fun e => decide (e.score = s))).Pairwise
        (fun a b => scoreDesc a b = true) := by
      refine pairwise_of_forall_mem _ ?_
      intro a ha b hb
      have ha' := (List.mem_filter.mp ha).2
      have hb' := (List.mem_filter.mp hb).2
      simp only [decide_eq_true_eq] at ha' hb'
      simp [scoreDesc, ha', hb']
    have hsub : List.Sublist (pre.filter (fun e => decide (e.score = s)))
        (pre.mergeSort scoreDesc) :=
      List.sublist_mergeSort scoreDesc_trans scoreDesc_total hpw
        (List.filter_sublist pre)
    have hself : (pre.filter (fun e => decide (e.score = s))).filter
        (fun e => decide (e.score = s)) = pre.filter (fun e => decide (e.score = s)) :=
      List.filter_eq_self.mpr (fun a ha => (List.mem_filter.mp ha).2)
    have h4 := hsub.filter (fun e => decide (e.score = s))
    rw [hself] at h4
    have hperm := (List.mergeSort_perm pre scoreDesc).filter
      (fun e => decide (e.score = s))
    exact (h4.eq_of_length hperm.length_eq.symm).symm

/-! ## Claim C10 -/

theorem scoreList_get (p : UserProfile) :
    ∀ (cars : List Car) (pre : List ScoredCar), scoreList cars p = Except.ok pre →
      ∀ i (hi : i < cars.length) (hpi : i < pre.length),
        ∃ s rs, score_single_car (cars.get ⟨i, hi⟩) p = Except.ok (s, rs) ∧
          pre.get ⟨i, hpi⟩ =
            { id := (cars.get ⟨i, hi⟩).id, score := pyRound2 s, reasons := rs } := by
  intro cars
  induction cars with
  | nil =>
    intro pre h i hi
    exact absurd hi (by simp)
  | cons car cars ih =>
    intro pre h i hi hpi
    obtain ⟨s, rs, tail, hsc, htl, hpre⟩ := scoreList_cons_inv car cars p pre h
    subst hpre
    cases i with
    | zero => exact ⟨s, rs, hsc, rfl⟩
    | succ i =>
      have hi' : i < cars.length := by simpa using hi
      have hpi' : i < tail.length := by simpa using hpi
      obtain ⟨s', rs', h1, h2⟩ := ih tail htl i hi' hpi'
      exact ⟨s', rs', h1, h2⟩

/-- **C10.** Each entry of the scored list carries the raw weighted factor
sum rounded to 2 decimals, the descending sort is performed on these
rounded values, and two catalog entries whose scores round to the same
2-decimal value stay in catalog order in the output. -/
theorem C10_rounded_scores_tie_order (cars : List Car) (p : UserProfile)
    (pre l : List ScoredCar)
    (hpre : scoreList cars p = Except.ok pre)
    (hl : score_cars_for_user cars p = Except.ok l) :
    (∀ i (hi : i < cars.length) (hpi : i < pre.length),
      ∃ s rs, score_single_car (cars.get ⟨i, hi⟩) p = Except.ok (s, rs) ∧
        pre.get ⟨i, hpi⟩ =
          { id := (cars.get ⟨i, hi⟩).id, score := pyRound2 s, reasons := rs }) ∧
    (∀ a b : ScoredCar, List.Sublist [a, b] pre → a.score = b.score → List.Sublist [a, b] l) := by
  rw [score_cars_eq cars p pre hpre] at hl
  injection hl with hl
  subst hl
  refine ⟨scoreList_get p cars pre hpre, ?_⟩
  intro a b hab heq
  exact List.pair_sublist_mergeSort scoreDesc_trans scoreDesc_total
    (by simp [scoreDesc, heq]) hab

/-! ## Concrete scoring evaluations for witnesses and counterexamples -/

/-- A plain car (only a crash score of 0.95) scores 0.79 under the empty
profile: 0.2×0.7 + 0.2×0.7 + 0.15×1 + 0.1×0.8 + 0.1×0.9 + 0.1×0.7 +
0.1×0.7 + 0.05×1. -/
theorem score_single_plain (s : String) :
    score_single_car { id := s, crash_test_score := some 0.95 } emptyUP =
      Except.ok (79/100, ["within_budget", "enough_seats", "efficient_choice",
        "adequate_power", "top_safety"]) := by
  have hb : score_budget { id := s, crash_test_score := some 0.95 } emptyUP =
      Except.ok (0.7, ["within_budget"]) := by
    have h1 : get_price { id := s, crash_test_score := some 0.95 } ≤
        emptyUP.budget_max.getD 50000 := by
      norm_num [get_price, emptyUP]
    rw [score_budget_eq_of_le _ emptyUP (by norm_num [emptyUP]) h1]
    norm_num [get_price, emptyUP]
  have hf : score_features { id := s, crash_test_score := some 0.95 } emptyUP =
      Except.ok (0.7, []) := score_features_eq_nil _ _ rfl
  rw [score_single_car_eq _ _ _ _ _ _ hb hf]
  have h2 : score_fuel_efficiency { id := s, crash_test_score := some 0.95 } emptyUP =
      (0.7, []) := by
    simp [score_fuel_efficiency, get_mpg_city, get_mpg_hwy, get_fuel_type, emptyUP]
    norm_num
  have h3 : score_seating { id := s, crash_test_score := some 0.95 } emptyUP =
      (1, ["enough_seats"]) := by
    simp [score_seating, get_seating, get_child_seat_fit, emptyUP]
  have h4 : score_drivetrain { id := s, crash_test_score := some 0.95 } emptyUP =
      (0.8, []) := by
    simp [score_drivetrain, get_drivetrain, emptyUP]
  have h5 : score_vehicle_type { id := s, crash_test_score := some 0.95 } emptyUP =
      (0.9, ["efficient_choice"]) := by
    simp [score_vehicle_type, get_body_style, get_seating, is_offroad_capable,
      get_ground_clearance, emptyUP]
  have h6 : score_performance { id := s, crash_test_score := some 0.95 } emptyUP =
      (0.7, ["adequate_power"]) := by
    simp [score_performance, get_mpg_city, get_mpg_hwy, emptyUP]
  have h7 : score_safety { id := s, crash_test_score := some 0.95 } emptyUP =
      (1, ["top_safety"]) := by
    simp [score_safety, get_safety_score, get_driver_assist_features, emptyUP]
    norm_num
  rw [h2, h3, h4, h5, h6, h7, get_weights_none rfl]
  norm_num [DEFAULT_WEIGHTS]

theorem pyRound2_79 : pyRound2 (79/100) = 79/100 := by
  norm_num [pyRound2, pyRoundInt]

def w4carA : Car := { id := "a", crash_test_score := some 0.95 }
def w4carB : Car :=
  { id := "b", mpg_city := some 35, mpg_hwy := some 45, seats := some 3,
    crash_test_score := some 0.95 }
def w4entryA : ScoredCar :=
  { id := "a", score := 79/100,
    reasons := ["within_budget", "enough_seats", "efficient_choice",
      "adequate_power", "top_safety"] }
def w4entryB : ScoredCar :=
  { id := "b", score := 67/100,
    reasons := ["within_budget", "good_mpg", "efficient_choice",
      "adequate_power", "top_safety"] }

/-- The second witness car (good mpg but only 3 seats) scores 0.67. -/
theorem score_single_w4carB : score_single_car w4carB emptyUP =
    Except.ok (67/100, ["within_budget", "good_mpg", "efficient_choice",
      "adequate_power", "top_safety"]) := by
  have hb : score_budget w4carB emptyUP = Except.ok (0.7, ["within_budget"]) := by
    have h1 : get_price w4carB ≤ emptyUP.budget_max.getD 50000 := by
      norm_num [get_price, w4carB, emptyUP]
    rw [score_budget_eq_of_le _ emptyUP (by norm_num [emptyUP]) h1]
    norm_num [get_price, w4carB, emptyUP]
  have hf : score_features w4carB emptyUP = Except.ok (0.7, []) :=
    score_features_eq_nil _ _ rfl
  rw [score_single_car_eq _ _ _ _ _ _ hb hf]
  have h2 : score_fuel_efficiency w4carB emptyUP = (0.7, ["good_mpg"]) := by
    simp [score_fuel_efficiency, get_mpg_city, get_mpg_hwy, get_fuel_type, w4carB, emptyUP]
    norm_num
  have h3 : score_seating w4carB emptyUP = (0.2, []) := by
    simp [score_seating, get_seating, get_child_seat_fit, w4carB, emptyUP]
  have h4 : score_drivetrain w4carB emptyUP = (0.8, []) := by
    simp [score_drivetrain, get_drivetrain, w4carB, emptyUP]
  have h5 : score_vehicle_type w4carB emptyUP = (0.9, ["efficient_choice"]) := by
    simp [score_vehicle_type, get_body_style, get_seating, is_offroad_capable,
      get_ground_clearance, w4carB, emptyUP]
  have h6 : score_performance w4carB emptyUP = (0.7, ["adequate_power"]) := by
    simp [score_performance, get_mpg_city, get_mpg_hwy, w4carB, emptyUP]
  have h7 : score_safety w4carB emptyUP = (1, ["top_safety"]) := by
    simp [score_safety, get_safety_score, get_driver_assist_features, w4carB, emptyUP]
    norm_num
  rw [h2, h3, h4, h5, h6, h7, get_weights_none rfl]
  norm_num [DEFAULT_WEIGHTS]

theorem scoreList_w4 : scoreList [w4carA, w4carB] emptyUP =
    Except.ok [w4entryA, w4entryB] := by
  have hB := scoreList_cons w4carB [] emptyUP (67/100)
    ["within_budget", "good_mpg", "efficient_choice", "adequate_power", "top_safety"]
    [] score_single_w4carB rfl
  have h67 : pyRound2 (67/100) = 67/100 := by norm_num [pyRound2, pyRoundInt]
  rw [h67] at hB
  have hA := scoreList_cons w4carA [w4carB] emptyUP (79/100)
    ["within_budget", "enough_seats", "efficient_choice", "adequate_power", "top_safety"]
    [w4entryB] (score_single_plain "a") hB
  rw [pyRound2_79] at hA
  exact hA

theorem score_cars_w4 : score_cars_for_user [w4carA, w4carB] emptyUP =
    Except.ok [w4entryA, w4entryB] := by
  rw [score_cars_eq _ _ _ scoreList_w4]
  have hsorted : List.Pairwise (fun a b => scoreDesc a b = true) [w4entryA, w4entryB] := by
    simp [List.pairwise_cons, scoreDesc, w4entryA, w4entryB]
    norm_num
  rw [List.mergeSort_of_sorted hsorted]

/-- Witness for C4 on a concrete two-car catalog: the output is the scored
pair in descending order (0.79 then 0.67) and is sorted. -/
theorem C4_sorted_stable_witness :
    scoreList [w4carA, w4carB] emptyUP = Except.ok [w4entryA, w4entryB] ∧
    score_cars_for_user [w4carA, w4carB] emptyUP = Except.ok [w4entryA, w4entryB] ∧
    List.Pairwise (fun a b : ScoredCar => b.score ≤ a.score) [w4entryA, w4entryB] :=
  ⟨scoreList_w4, score_cars_w4,
    (C4_sorted_stable [w4carA, w4carB] emptyUP _ _ scoreList_w4 score_cars_w4).1⟩

def w10carC : Car := { id := "c", crash_test_score := some 0.95 }
def w10carD : Car := { id := "d", crash_test_score := some 0.95 }
def w10entryC : ScoredCar :=
  { id := "c", score := 79/100,
    reasons := ["within_budget", "enough_seats", "efficient_choice",
      "adequate_power", "top_safety"] }
def w10entryD : ScoredCar :=
  { id := "d", score := 79/100,
    reasons := ["within_budget", "enough_seats", "efficient_choice",
      "adequate_power", "top_safety"] }

theorem scoreList_w10 : scoreList [w10carC, w10carD] emptyUP =
    Except.ok [w10entryC, w10entryD] := by
  have hD := scoreList_cons w10carD [] emptyUP (79/100)
    ["within_budget", "enough_seats", "efficient_choice", "adequate_power", "top_safety"]
    [] (score_single_plain "d") rfl
  rw [pyRound2_79] at hD
  have hC := scoreList_cons w10carC [w10carD] emptyUP (79/100)
    ["within_budget", "enough_seats", "efficient_choice", "adequate_power", "top_safety"]
    [w10entryD] (score_single_plain "c") hD
  rw [pyRound2_79] at hC
  exact hC

theorem score_cars_w10 : score_cars_for_user [w10carC, w10carD] emptyUP =
    Except.ok [w10entryC, w10entryD] := by
  rw [score_cars_eq _ _ _ scoreList_w10]
  have hsorted : List.Pairwise (fun a b => scoreDesc a b = true)
      [w10entryC, w10entryD] := by
    simp [List.pairwise_cons, scoreDesc, w10entryC, w10entryD]
  rw [List.mergeSort_of_sorted hsorted]

/-- Witness for C10: two identical cars round to the same 0.79 score and
are returned as a tie in catalog order "c" before "d". -/
theorem C10_rounded_scores_tie_order_witness :
    scoreList [w10carC, w10carD] emptyUP = Except.ok [w10entryC, w10entryD] ∧
    score_cars_for_user [w10carC, w10carD] emptyUP = Except.ok [w10entryC, w10entryD] ∧
    List.Sublist [w10entryC, w10entryD] [w10entryC, w10entryD] :=
  ⟨scoreList_w10, score_cars_w10,
    (C10_rounded_scores_tie_order [w10carC, w10carD] emptyUP _ _ scoreList_w10
      score_cars_w10).2 w10entryC w10entryD (List.Sublist.refl _) rfl⟩

/-- Witness for C2 on a one-car catalog under the empty profile: the score
0.79 is within [0, 1.1]. -/
theorem C2_score_bounds_witness :
    score_cars_for_user [w4carA] emptyUP = Except.ok [w4entryA] ∧
    0 ≤ w4entryA.score ∧ w4entryA.score ≤ 11/10 := by
  have hpre : scoreList [w4carA] emptyUP = Except.ok [w4entryA] := by
    have h := scoreList_cons w4carA [] emptyUP (79/100)
      ["within_budget", "enough_seats", "efficient_choice", "adequate_power", "top_safety"]
      [] (score_single_plain "a") rfl
    rw [pyRound2_79] at h
    exact h
  have hl : score_cars_for_user [w4carA] emptyUP = Except.ok [w4entryA] := by
    rw [score_cars_eq _ _ _ hpre]
    simp
  refine ⟨hl, ?_⟩
  refine C2_score_bounds [w4carA] emptyUP [w4entryA] ?_ ?_ rfl hl w4entryA ?_
  · intro c hc
    rw [List.mem_singleton] at hc
    subst hc
    norm_num [get_price, w4carA]
  · norm_num [emptyUP]
  · exact List.mem_singleton.mpr rfl

def c2car : Car :=
  { id := "c2", base_msrp := some 1000, mpg_city := some 100, mpg_hwy := some 100,
    seats := some 5, drivetrain := some "AWD", body_style := some "sedan",
    fuel_type := some "hybrid", crash_test_score := some 0.95,
    driver_assist := some ["Hybrid_Assist", "AWD_Assist"] }

def c2profile : UserProfile :=
  { commute_miles := some 31, features_wanted := some ["hybrid", "awd"] }

def c2entry : ScoredCar :=
  { id := "c2", score := 101/100,
    reasons := ["within_budget", "under_budget", "eco_friendly", "excellent_mpg",
      "enough_seats", "awd_match", "efficient_choice", "adequate_power",
      "eco_friendly", "feature_rich", "top_safety"] }

/-- The features factor double-counts a wanted "hybrid" (substring match in
the driver-assist list *and* the fuel-type check), giving ratio 3/2. -/
theorem score_features_c2 : score_features c2car c2profile =
    Except.ok (3/2, ["eco_friendly", "feature_rich"]) := by
  have hda : (get_driver_assist_features c2car).map
      (fun f => pyUnderscoreToSpace (pyLower f)) = ["hybrid assist", "awd assist"] := by
    decide
  have hm : featureMatches c2car ["hybrid assist", "awd assist"] ["hybrid", "awd"] =
      (3, ["eco_friendly"]) := by
    decide
  have h := score_features_eq_cons c2car c2profile "hybrid" ["awd"] rfl
  rw [hda, hm] at h
  rw [h]
  norm_num

/-- The raw weighted score of the counterexample car is 1.0088. -/
theorem score_single_c2 : score_single_car c2car c2profile =
    Except.ok (1261/1250, ["within_budget", "under_budget", "eco_friendly",
      "excellent_mpg", "enough_seats", "awd_match", "efficient_choice",
      "adequate_power", "eco_friendly", "feature_rich", "top_safety"]) := by
  have hb : score_budget c2car c2profile =
      Except.ok (497/500, ["within_budget", "under_budget"]) := by
    have h1 : get_price c2car ≤ c2profile.budget_max.getD 50000 := by
      norm_num [get_price, c2car, c2profile]
    rw [score_budget_eq_of_le _ c2profile (by norm_num [c2profile]) h1]
    norm_num [get_price, c2car, c2profile]
  rw [score_single_car_eq _ _ _ _ _ _ hb score_features_c2]
  have h2 : score_fuel_efficiency c2car c2profile =
      (1, ["eco_friendly", "excellent_mpg"]) := by
    simp [score_fuel_efficiency, get_mpg_city, get_mpg_hwy, get_fuel_type, c2car, c2profile]
    norm_num
  have h3 : score_seating c2car c2profile = (1, ["enough_seats"]) := by
    simp [score_seating, get_seating, get_child_seat_fit, c2car, c2profile]
  have h4 : score_drivetrain c2car c2profile = (1, ["awd_match"]) := by
    simp [score_drivetrain, get_drivetrain, c2car, c2profile]
  have h5 : score_vehicle_type c2car c2profile = (0.9, ["efficient_choice"]) := by
    simp [score_vehicle_type, get_body_style, get_seating, is_offroad_capable,
      get_ground_clearance, c2car, c2profile]
  have h6 : score_performance c2car c2profile = (0.7, ["adequate_power"]) := by
    simp [score_performance, get_mpg_city, get_mpg_hwy, c2car, c2profile]
  have h7 : score_safety c2car c2profile = (1, ["top_safety"]) := by
    simp [score_safety, get_safety_score, get_driver_assist_features, c2car, c2profile]
    norm_num
  rw [h2, h3, h4, h5, h6, h7, get_weights_none rfl]
  norm_num [DEFAULT_WEIGHTS]

/-- Counterexample to C2 as stated: with default weights (no override), a
non-negative price and the default budget cap, the hybrid double-count
pushes the rounded score to 1.01 > 1. -/
theorem C2_counterexample :
    score_cars_for_user [c2car] c2profile = Except.ok [c2entry] ∧
    c2profile.weights = none ∧
    0 ≤ get_price c2car ∧
    0 < c2profile.budget_max.getD 50000 ∧
    ¬ c2entry.score ≤ 1 := by
  have hpre : scoreList [c2car] c2profile = Except.ok [c2entry] := by
    have h := scoreList_cons c2car [] c2profile (1261/1250)
      ["within_budget", "under_budget", "eco_friendly", "excellent_mpg", "enough_seats",
        "awd_match", "efficient_choice", "adequate_power", "eco_friendly", "feature_rich",
        "top_safety"] [] score_single_c2 rfl
    have h101 : pyRound2 (1261/1250) = 101/100 := by norm_num [pyRound2, pyRoundInt]
    rw [h101] at h
    exact h
  refine ⟨?_, rfl, ?_, ?_, ?_⟩
  · rw [score_cars_eq _ _ _ hpre]
    simp
  · norm_num [get_price, c2car]
  · norm_num [c2profile]
  · norm_num [c2entry]
